import Mathlib

/-!
Verification development for the aniimax production optimizer
(`src/optimizer.rs`, `src/models.rs`).

Floating point (`f64`) is embedded as `ℚ`; all arithmetic appearing in the
verified claims is exact in both representations (small integers and dyadic
rationals, no overflow/rounding at the evaluated points).  `f64::INFINITY`,
which the source can produce in the steady-state rate computation, is
modelled by `Option ℚ` (`none` = +infinity) where it can arise.
`HashSet<String>` (the resolver's `visited` set and facility sets) is
modelled as a duplicate-free `List String` with membership-guarded insert,
so that insertion and removal have exactly the `HashSet` semantics.
`HashMap<String, &ProductionItem>` built from the item list (later inserts
win) is modelled by reversing the list and taking the first hit.

General recursion in `calculate_item_requirements` (whose termination is
itself under scrutiny) is embedded with explicit fuel: the result `none`
means the computation did not finish within the given fuel, so
`∀ fuel, ... = none` states genuine divergence of the Rust function.
-/

/-- `models.rs` `ProductionItem`. `f64` fields are `ℚ`, `u32` fields are `Nat`. -/
structure ProductionItem where
  name : String
  facility : String
  raw_materials : Option (List String)
  required_amount : Option (List Nat)
  cost : Option ℚ
  sell_currency : String
  sell_value : ℚ
  production_time : ℚ
  yield_amount : Nat
  energy : Option ℚ
  facility_level : Nat
  module_requirement : Option (String × Nat)
  requires_fertilizer : Bool
deriving DecidableEq

/-- `models.rs` `FacilityCounts`: (count, level) per facility. -/
structure FacilityCounts where
  farmland : Nat × Nat
  woodland : Nat × Nat
  mineral_pile : Nat × Nat
  carousel_mill : Nat × Nat
  jukebox_dryer : Nat × Nat
  crafting_table : Nat × Nat
  dance_pad_polisher : Nat × Nat
  aniipod_maker : Nat × Nat
  nimbus_bed : Nat × Nat
deriving DecidableEq

/-- `FacilityCounts::get_count`: unknown facility names default to 1. -/
def FacilityCounts.get_count (fc : FacilityCounts) (facility : String) : Nat :=
  if facility = "Farmland" then fc.farmland.1
  else if facility = "Woodland" then fc.woodland.1
  else if facility = "Mineral Pile" then fc.mineral_pile.1
  else if facility = "Carousel Mill" then fc.carousel_mill.1
  else if facility = "Jukebox Dryer" then fc.jukebox_dryer.1
  else if facility = "Crafting Table" then fc.crafting_table.1
  else if facility = "Dance Pad Polisher" then fc.dance_pad_polisher.1
  else if facility = "Aniipod Maker" then fc.aniipod_maker.1
  else if facility = "Nimbus Bed" then fc.nimbus_bed.1
  else 1

/-- `FacilityCounts::get_level`: unknown facility names default to 1. -/
def FacilityCounts.get_level (fc : FacilityCounts) (facility : String) : Nat :=
  if facility = "Farmland" then fc.farmland.2
  else if facility = "Woodland" then fc.woodland.2
  else if facility = "Mineral Pile" then fc.mineral_pile.2
  else if facility = "Carousel Mill" then fc.carousel_mill.2
  else if facility = "Jukebox Dryer" then fc.jukebox_dryer.2
  else if facility = "Crafting Table" then fc.crafting_table.2
  else if facility = "Dance Pad Polisher" then fc.dance_pad_polisher.2
  else if facility = "Aniipod Maker" then fc.aniipod_maker.2
  else if facility = "Nimbus Bed" then fc.nimbus_bed.2
  else 1

/-- `FacilityCounts::can_produce`: facility level ≥ required level. -/
def FacilityCounts.can_produce (fc : FacilityCounts) (facility : String)
    (required_level : Nat) : Bool :=
  required_level ≤ fc.get_level facility

/-- `models.rs` `ModuleLevels`. -/
structure ModuleLevels where
  ecological_module : Nat
  kitchen_module : Nat
  mineral_detector : Nat
  crafting_module : Nat
deriving DecidableEq

/-- `ModuleLevels::get_level`: unknown module names default to 0. -/
def ModuleLevels.get_level (ml : ModuleLevels) (module_name : String) : Nat :=
  if module_name = "ecological_module" then ml.ecological_module
  else if module_name = "kitchen_module" then ml.kitchen_module
  else if module_name = "mineral_detector" then ml.mineral_detector
  else if module_name = "crafting_module" then ml.crafting_module
  else 0

/-- `ModuleLevels::can_use`: module level ≥ required level. -/
def ModuleLevels.can_use (ml : ModuleLevels) (module_name : String)
    (required_level : Nat) : Bool :=
  required_level ≤ ml.get_level module_name

/-- The item map `HashMap<String, &ProductionItem>` built by
`items.iter().map(|i| (i.name.clone(), i)).collect()`: represented as the
item list itself; lookup takes the last entry with the given name
(`HashMap` insertion overwrites). -/
def mapGet (items : List ProductionItem) (key : String) : Option ProductionItem :=
  items.reverse.find? (fun i => i.name = key)

/-- `f64::ceil` on an exact rational. -/
def qCeil (q : ℚ) : ℚ := (⌈q⌉ : ℚ)

/-- `HashSet::insert` on the list model: no-op when already present. -/
def sInsert (s : List String) (x : String) : List String :=
  if x ∈ s then s else x :: s

/-- `HashSet::remove` on the list model. -/
def sRemove (s : List String) (x : String) : List String :=
  s.filter (fun y => y ≠ x)

/-- `optimizer.rs` `ProductionRequirements`.  `all_facilities` is a
`HashSet<String>` modelled as a duplicate-free list. -/
structure ProductionRequirements where
  total_time : ℚ
  total_energy : Option ℚ
  total_cost : ℚ
  raw_names : List String
  primary_facility : Option String
  all_facilities : List String
  intermediate_steps : List (String × String × Nat)
  is_valid : Bool
deriving DecidableEq

/-- The all-fields-empty invalid `ProductionRequirements` the resolver
returns on every failure path. -/
def invalidRequirements : ProductionRequirements :=
  { total_time := 0
    total_energy := none
    total_cost := 0
    raw_names := []
    primary_facility := none
    all_facilities := []
    intermediate_steps := []
    is_valid := false }

/-- Variant selection at the top of `calculate_item_requirements`
(optimizer.rs lines 333–380): prefer the `high_speed_` variant when its
module and facility requirements are met, otherwise fall back to the base
item; `none` when neither is in the catalog. -/
def resolveVariant (item_map : List ProductionItem) (item_name : String)
    (fc : FacilityCounts) (ml : ModuleLevels) : Option (ProductionItem × String) :=
  let high_speed_name := "high_speed_" ++ item_name
  match mapGet item_map high_speed_name with
  | some hs_item =>
    let can_use_hs :=
      match hs_item.module_requirement with
      | some (module_name, required_level) => ml.can_use module_name required_level
      | none => true
    let can_produce_hs := fc.can_produce hs_item.facility hs_item.facility_level
    if can_use_hs && can_produce_hs then
      some (hs_item, high_speed_name)
    else
      match mapGet item_map item_name with
      | some base_item => some (base_item, item_name)
      | none => none
  | none =>
    match mapGet item_map item_name with
    | some base_item => some (base_item, item_name)
    | none => none

/-- The module-requirement gate shared by the resolver and the efficiency
calculator: `true` iff the item's module requirement (if any) is met. -/
def moduleOk (ml : ModuleLevels) (item : ProductionItem) : Bool :=
  match item.module_requirement with
  | some (module_name, required_level) => ml.can_use module_name required_level
  | none => true

/-- Accumulator of the ingredient loop in `calculate_item_requirements`
(optimizer.rs lines 432–438). -/
structure IngredientAcc where
  max_ingredient_time : ℚ
  total_ingredient_energy : Option ℚ
  total_ingredient_cost : ℚ
  all_raw_names : List String
  primary_facility : Option String
  all_facilities : List String
  intermediate_steps : List (String × String × Nat)
deriving DecidableEq

/-- Rust `HashSet::extend`: insert the elements one by one. -/
def sExtend (s : List String) (t : List String) : List String :=
  t.foldl sInsert s

/-- The per-ingredient intermediate-step lookup (optimizer.rs lines
497–518): if the ingredient (preferring its usable `high_speed_` variant)
is itself a processed item, record it as an intermediate step. -/
def ingredientIntermediateStep (item_map : List ProductionItem)
    (fc : FacilityCounts) (ml : ModuleLevels) (raw_mat : String)
    (ingredient_required_per_batch : Nat) : List (String × String × Nat) :=
  let high_speed_mat := "high_speed_" ++ raw_mat
  let mat_item :=
    match mapGet item_map high_speed_mat with
    | some hs =>
      if moduleOk ml hs && fc.can_produce hs.facility hs.facility_level then
        some hs
      else mapGet item_map raw_mat
    | none => mapGet item_map raw_mat
  match mat_item with
  | some mat =>
    if mat.raw_materials.isSome then
      [(mat.name, mat.facility, ingredient_required_per_batch)]
    else []
  | none => []

/-- One step of the ingredient loop of `calculate_item_requirements`
(optimizer.rs lines 446–519).  The state is `none` when a nested call ran
out of fuel, `some (Except.error r)` when an invalid ingredient caused the
early return with result `r`, and `some (Except.ok (acc, visited))`
when the loop is still running. -/
def processIngredient
    (recurse : String → ℚ → List String →
      Option (ProductionRequirements × List String))
    (item_map : List ProductionItem) (fc : FacilityCounts) (ml : ModuleLevels)
    (required_amounts : List Nat) (batches_needed : ℚ) (actual_name : String)
    (st : Option (Except (ProductionRequirements × List String)
      (IngredientAcc × List String)))
    (im : Nat × String) :
    Option (Except (ProductionRequirements × List String)
      (IngredientAcc × List String)) :=
  match st with
  | none => none
  | some (Except.error e) => some (Except.error e)
  | some (Except.ok (acc, visited)) =>
    let i := im.1
    let raw_mat := im.2
    let ingredient_required_per_batch := required_amounts.getD i 1
    let ingredient_required := (ingredient_required_per_batch : ℚ) * batches_needed
    match recurse raw_mat ingredient_required visited with
    | none => none
    | some (ingredient_reqs, visited') =>
      if ingredient_reqs.is_valid = false then
        some (Except.error (invalidRequirements, sRemove visited' actual_name))
      else
        let max_ingredient_time :=
          if ingredient_reqs.total_time > acc.max_ingredient_time then
            ingredient_reqs.total_time
          else acc.max_ingredient_time
        let total_ingredient_energy :=
          match ingredient_reqs.total_energy with
          | some e => some (acc.total_ingredient_energy.getD 0 + e)
          | none => acc.total_ingredient_energy
        let total_ingredient_cost :=
          acc.total_ingredient_cost + ingredient_reqs.total_cost
        let all_raw_names := acc.all_raw_names ++ ingredient_reqs.raw_names
        let primary_facility :=
          if acc.primary_facility.isNone then ingredient_reqs.primary_facility
          else acc.primary_facility
        let all_facilities := sExtend acc.all_facilities ingredient_reqs.all_facilities
        let intermediate_steps :=
          acc.intermediate_steps ++ ingredient_reqs.intermediate_steps ++
            ingredientIntermediateStep item_map fc ml raw_mat
              ingredient_required_per_batch
        some (Except.ok
          ({ max_ingredient_time := max_ingredient_time
             total_ingredient_energy := total_ingredient_energy
             total_ingredient_cost := total_ingredient_cost
             all_raw_names := all_raw_names
             primary_facility := primary_facility
             all_facilities := all_facilities
             intermediate_steps := intermediate_steps }, visited'))

/-- The ingredient-loop accumulator's initial value (optimizer.rs lines
432–441): everything empty except this item's own processing facility. -/
def initialAcc (facility : String) : IngredientAcc :=
  { max_ingredient_time := 0
    total_ingredient_energy := none
    total_ingredient_cost := 0
    all_raw_names := []
    primary_facility := none
    all_facilities := sInsert [] facility
    intermediate_steps := [] }

/-- The whole ingredient loop of `calculate_item_requirements` (optimizer.rs
lines 446–519) as a fold over the enumerated ingredient list. -/
def ingredientLoop
    (recurse : String → ℚ → List String →
      Option (ProductionRequirements × List String))
    (item_map : List ProductionItem) (fc : FacilityCounts) (ml : ModuleLevels)
    (required_amounts : List Nat) (batches_needed : ℚ) (actual_name : String)
    (facility : String) (raw_mats : List String) (visited1 : List String) :
    Option (Except (ProductionRequirements × List String)
      (IngredientAcc × List String)) :=
  raw_mats.enum.foldl
    (processIngredient recurse item_map fc ml required_amounts batches_needed
      actual_name)
    (some (Except.ok (initialAcc facility, visited1)))

/-- `optimizer.rs` `calculate_item_requirements` (lines 309–580), embedded
with fuel: each recursive call consumes one unit, `none` = fuel exhausted
(the Rust call has not returned yet).  Returns the result together with the
final `visited` set (`&mut HashSet` threading made explicit). -/
def calculate_item_requirements : Nat → String → ℚ → List ProductionItem →
    FacilityCounts → ModuleLevels → ℚ → ℚ → List String →
    Option (ProductionRequirements × List String)
  | 0, _, _, _, _, _, _, _, _ => none
  | fuel + 1, item_name, required_amount, item_map, fc, ml,
      fertilizer_time_per_unit, nimbus_bed_count, visited =>
    if item_name ∈ visited then
      some (invalidRequirements, visited)
    else
      match resolveVariant item_map item_name fc ml with
      | none => some (invalidRequirements, visited)
      | some (item, actual_name) =>
        if fc.can_produce item.facility item.facility_level = false then
          some (invalidRequirements, visited)
        else if moduleOk ml item = false then
          some (invalidRequirements, visited)
        else if item.requires_fertilizer && nimbus_bed_count = 0 then
          some (invalidRequirements, visited)
        else
          let visited1 := sInsert visited actual_name
          match item.raw_materials with
          | some raw_mats =>
            let required_amounts := item.required_amount.getD []
            let batches_needed := qCeil (required_amount / (item.yield_amount : ℚ))
            let looped := ingredientLoop
              (fun m amt vis => calculate_item_requirements fuel m amt item_map
                fc ml fertilizer_time_per_unit nimbus_bed_count vis)
              item_map fc ml required_amounts batches_needed actual_name
              item.facility raw_mats visited1
            match looped with
            | none => none
            | some (Except.error e) => some e
            | some (Except.ok (acc, visited2)) =>
              let processing_facility_count := (fc.get_count item.facility : ℚ)
              let processing_time :=
                item.production_time * qCeil (batches_needed / processing_facility_count)
              let total_energy :=
                match acc.total_ingredient_energy, item.energy with
                | some ie, some pe => some (ie + pe * batches_needed)
                | some ie, none => some ie
                | none, some pe => some (pe * batches_needed)
                | none, none => none
              some
                ({ total_time := acc.max_ingredient_time + processing_time
                   total_energy := total_energy
                   total_cost := acc.total_ingredient_cost
                   raw_names := acc.all_raw_names
                   primary_facility := acc.primary_facility
                   all_facilities := acc.all_facilities
                   intermediate_steps := acc.intermediate_steps
                   is_valid := true }, sRemove visited2 actual_name)
          | none =>
            let facility_count := (fc.get_count item.facility : ℚ)
            let batches_needed := qCeil (required_amount / (item.yield_amount : ℚ))
            let time_per_batch := item.production_time
            let parallel_batches := qCeil (batches_needed / facility_count)
            let fertilizer_time :=
              if item.requires_fertilizer then
                fertilizer_time_per_unit * batches_needed
              else 0
            let total_time := time_per_batch * parallel_batches + fertilizer_time
            let total_energy := item.energy.map (fun e => e * batches_needed)
            let total_cost := item.cost.getD 0 * batches_needed
            some
              ({ total_time := total_time
                 total_energy := total_energy
                 total_cost := total_cost
                 raw_names := [actual_name]
                 primary_facility := some item.facility
                 all_facilities := sInsert [] item.facility
                 intermediate_steps := []
                 is_valid := true }, sRemove visited1 actual_name)

/-- A facility inventory with every count and level 1 (used for concrete
evaluations). -/
def fcOnes : FacilityCounts :=
  { farmland := (1, 1), woodland := (1, 1), mineral_pile := (1, 1)
    carousel_mill := (1, 1), jukebox_dryer := (1, 1), crafting_table := (1, 1)
    dance_pad_polisher := (1, 1), aniipod_maker := (1, 1), nimbus_bed := (1, 1) }

/-- All modules locked (level 0). -/
def mlZero : ModuleLevels :=
  { ecological_module := 0, kitchen_module := 0, mineral_detector := 0
    crafting_module := 0 }

/-- A raw-material catalog entry used to build synthetic catalogs. -/
def rawItem (nm fac : String) (t : ℚ) (y : Nat) : ProductionItem :=
  { name := nm, facility := fac, raw_materials := none, required_amount := none
    cost := some 0, sell_currency := "coins", sell_value := 1
    production_time := t, yield_amount := y, energy := none, facility_level := 1
    module_requirement := none, requires_fertilizer := false }

/-- A processed catalog entry with the given ingredient list. -/
def procItem (nm fac : String) (mats : List String) (amts : List Nat)
    (t : ℚ) (y : Nat) : ProductionItem :=
  { name := nm, facility := fac, raw_materials := some mats
    required_amount := some amts, cost := none, sell_currency := "coins"
    sell_value := 1, production_time := t, yield_amount := y, energy := none
    facility_level := 1, module_requirement := none
    requires_fertilizer := false }

example :
    calculate_item_requirements 5 "w" 1 [rawItem "w" "F" 90 10] fcOnes mlZero 0 1 []
      = some
        ({ total_time := 90, total_energy := none, total_cost := 0
           raw_names := ["w"], primary_facility := some "F"
           all_facilities := ["F"], intermediate_steps := [], is_valid := true }, []) := by
  with_unfolding_all decide

/-! ### C1: cycle safety of the requirement resolver -/

/-- Synthetic 2-node cycle: `a2`'s only ingredient is `b2` and vice versa. -/
def twoCycleMap : List ProductionItem :=
  [procItem "a2" "F" ["b2"] [1] 1 1, procItem "b2" "F" ["a2"] [1] 1 1]

/-- Synthetic 3-node cycle `a3 → b3 → c3 → a3`. -/
def threeCycleMap : List ProductionItem :=
  [procItem "a3" "F" ["b3"] [1] 1 1, procItem "b3" "F" ["c3"] [1] 1 1,
   procItem "c3" "F" ["a3"] [1] 1 1]

/-- Synthetic catalog consisting only of `high_speed_a`, whose ingredient is
`a`: every request for `a` resolves to the `high_speed_a` variant, so the
cycle check (on the requested name `a`) never fires while the visited set
only ever receives `high_speed_a`. -/
def hsCycleMap : List ProductionItem :=
  [procItem "high_speed_a" "F" ["a"] [1] 1 1]

lemma mem_sInsert {x y : String} {s : List String} :
    x ∈ sInsert s y ↔ x = y ∨ x ∈ s := by
  unfold sInsert
  by_cases h : y ∈ s
  · simp only [if_pos h]
    constructor
    · exact Or.inr
    · rintro (rfl | hx)
      · exact h
      · exact hx
  · simp [if_neg h]

lemma hs_cycle_diverges (fuel : Nat) :
    ∀ (amt : ℚ) (v : List String), "a" ∉ v →
      calculate_item_requirements fuel "a" amt hsCycleMap fcOnes mlZero 0 1 v = none := by
  induction fuel with
  | zero => intro amt v _; rfl
  | succ f ih =>
    intro amt v hv
    have hnotin : "a" ∉ sInsert v "high_speed_a" := by
      rw [mem_sInsert]
      rintro (h | h)
      · exact absurd h (by decide)
      · exact hv h
    have hres : resolveVariant hsCycleMap "a" fcOnes mlZero
        = some (procItem "high_speed_a" "F" ["a"] [1] 1 1, "high_speed_a") := by
      with_unfolding_all decide
    have hcan : fcOnes.can_produce "F" 1 = true := by decide
    have ih' : ∀ amtx : ℚ, calculate_item_requirements f "a" amtx hsCycleMap fcOnes
        mlZero 0 1 (sInsert v "high_speed_a") = none :=
      fun amtx => ih amtx _ hnotin
    simp only [calculate_item_requirements, if_neg hv, hres]
    simp [procItem, moduleOk, hcan, ingredientLoop, initialAcc, processIngredient,
      List.enum, List.enumFrom, List.foldl, ih']

lemma cyc2_a2 (f : Nat) :
    calculate_item_requirements (f + 3) "a2" 1 twoCycleMap fcOnes mlZero 0 1 []
      = some (invalidRequirements, []) := by
  simp [calculate_item_requirements, resolveVariant, mapGet, twoCycleMap, procItem,
    moduleOk, FacilityCounts.can_produce, FacilityCounts.get_level, fcOnes,
    List.find?, ingredientLoop, initialAcc, processIngredient, List.enum,
    List.enumFrom, List.foldl, sInsert, sRemove, invalidRequirements, List.filter,
    show ("high_speed_" ++ "a2" : String) = "high_speed_a2" from rfl,
    show ("high_speed_" ++ "b2" : String) = "high_speed_b2" from rfl]

lemma cyc3_a3 (f : Nat) :
    calculate_item_requirements (f + 4) "a3" 1 threeCycleMap fcOnes mlZero 0 1 []
      = some (invalidRequirements, []) := by
  simp [calculate_item_requirements, resolveVariant, mapGet, threeCycleMap, procItem,
    moduleOk, FacilityCounts.can_produce, FacilityCounts.get_level, fcOnes,
    List.find?, ingredientLoop, initialAcc, processIngredient, List.enum,
    List.enumFrom, List.foldl, sInsert, sRemove, invalidRequirements, List.filter,
    show ("high_speed_" ++ "a3" : String) = "high_speed_a3" from rfl,
    show ("high_speed_" ++ "b3" : String) = "high_speed_b3" from rfl,
    show ("high_speed_" ++ "c3" : String) = "high_speed_c3" from rfl]

/-- C1: Plain 2-node and 3-node ingredient cycles do terminate with an
`is_valid = false` result (first two conjuncts, uniformly in any extra
fuel).  But the claim's universal termination statement is false: on the
synthetic catalog `hsCycleMap`, where the requested item `a` always
resolves to its `high_speed_a` variant, the resolver never returns no
matter how much fuel it is given — the cycle check tests the requested
name `a`, which is never the name inserted into the visited set
(`high_speed_a`), so the recursion `a → a → …` is unguarded and the Rust
function recurses forever instead of returning an invalid result. -/
theorem C1_cycle_guard :
    (∀ f : Nat, calculate_item_requirements (f + 3) "a2" 1 twoCycleMap fcOnes mlZero 0 1 []
      = some (invalidRequirements, [])) ∧
    (∀ f : Nat, calculate_item_requirements (f + 4) "a3" 1 threeCycleMap fcOnes mlZero 0 1 []
      = some (invalidRequirements, [])) ∧
    (∀ f : Nat, calculate_item_requirements f "a" 1 hsCycleMap fcOnes mlZero 0 1 []
      = none) :=
  ⟨cyc2_a2, cyc3_a3, fun f => hs_cycle_diverges f 1 [] (by decide)⟩

/-! ### C9: the visited set across resolver calls -/

lemma mem_sRemove {x a : String} {s : List String} :
    x ∈ sRemove s a ↔ x ∈ s ∧ x ≠ a := by
  simp [sRemove, List.mem_filter]

lemma sRemove_subset_of_subset {s v : List String} {a : String}
    (h : s ⊆ sInsert v a) : sRemove s a ⊆ v := by
  intro x hx
  rcases mem_sRemove.mp hx with ⟨hxs, hxa⟩
  rcases mem_sInsert.mp (h hxs) with h1 | h2
  · exact absurd h1 hxa
  · exact h2

/-- Invariant carried through the ingredient loop: an out-of-fuel state is
trivially fine, an early-return state's visited set is already inside the
caller's entry set `V`, and a running state's visited set is inside
`sInsert V an`. -/
def stInv (V : List String) (an : String)
    (st : Option (Except (ProductionRequirements × List String)
      (IngredientAcc × List String))) : Prop :=
  match st with
  | none => True
  | some (Except.error e) => e.2 ⊆ V
  | some (Except.ok (_, vcur)) => vcur ⊆ sInsert V an

lemma processIngredient_stInv
    (recurse : String → ℚ → List String →
      Option (ProductionRequirements × List String))
    (hrec : ∀ m amt vis r vis', recurse m amt vis = some (r, vis') → vis' ⊆ vis)
    (item_map : List ProductionItem) (fc : FacilityCounts) (ml : ModuleLevels)
    (ra : List Nat) (bn : ℚ) (an : String) (V : List String)
    (st : Option (Except (ProductionRequirements × List String)
      (IngredientAcc × List String)))
    (hst : stInv V an st) (im : Nat × String) :
    stInv V an (processIngredient recurse item_map fc ml ra bn an st im) := by
  match st with
  | none => exact trivial
  | some (Except.error e) => exact hst
  | some (Except.ok (acc, vcur)) =>
    simp only [processIngredient]
    cases hr : recurse im.2 ((ra.getD im.1 1 : ℚ) * bn) vcur with
    | none => exact trivial
    | some rv =>
      obtain ⟨reqs, visited'⟩ := rv
      have hsub : visited' ⊆ sInsert V an :=
        fun x hx => hst (hrec _ _ _ _ _ hr hx)
      by_cases hvalid : reqs.is_valid = false
      · simp only [if_pos hvalid]
        exact sRemove_subset_of_subset hsub
      · simp only [if_neg hvalid]
        exact hsub

lemma foldl_stInv
    (recurse : String → ℚ → List String →
      Option (ProductionRequirements × List String))
    (hrec : ∀ m amt vis r vis', recurse m amt vis = some (r, vis') → vis' ⊆ vis)
    (item_map : List ProductionItem) (fc : FacilityCounts) (ml : ModuleLevels)
    (ra : List Nat) (bn : ℚ) (an : String) (V : List String) :
    ∀ (l : List (Nat × String))
      (st : Option (Except (ProductionRequirements × List String)
        (IngredientAcc × List String))), stInv V an st →
      stInv V an (l.foldl (processIngredient recurse item_map fc ml ra bn an) st)
  | [], st, hst => hst
  | im :: rest, st, hst =>
    foldl_stInv recurse hrec item_map fc ml ra bn an V rest _
      (processIngredient_stInv recurse hrec item_map fc ml ra bn an V st hst im)

lemma some_pair_eq {α β : Type _} {a r : α} {b v : β}
    (h : (some (a, b) : Option (α × β)) = some (r, v)) : a = r ∧ b = v := by
  cases h; exact ⟨rfl, rfl⟩

lemma ingredientLoop_stInv
    (recurse : String → ℚ → List String →
      Option (ProductionRequirements × List String))
    (hrec : ∀ m amt vis r vis', recurse m amt vis = some (r, vis') → vis' ⊆ vis)
    (item_map : List ProductionItem) (fc : FacilityCounts) (ml : ModuleLevels)
    (ra : List Nat) (bn : ℚ) (an fac : String) (V : List String)
    (raw_mats : List String) :
    stInv V an (ingredientLoop recurse item_map fc ml ra bn an fac raw_mats
      (sInsert V an)) :=
  foldl_stInv recurse hrec item_map fc ml ra bn an V raw_mats.enum _
    (fun x hx => hx)

lemma calc_visited_subset : ∀ (fuel : Nat) (name : String) (amt : ℚ)
    (item_map : List ProductionItem) (fc : FacilityCounts) (ml : ModuleLevels)
    (ftpu nbc : ℚ) (v : List String) (r : ProductionRequirements) (v' : List String),
    calculate_item_requirements fuel name amt item_map fc ml ftpu nbc v = some (r, v') →
    v' ⊆ v := by
  intro fuel
  induction fuel with
  | zero =>
    intro name amt item_map fc ml ftpu nbc v r v' h
    exact absurd h (by simp [calculate_item_requirements])
  | succ f ih =>
    intro name amt item_map fc ml ftpu nbc v r v' h
    simp only [calculate_item_requirements] at h
    split at h
    · obtain ⟨-, h2⟩ := some_pair_eq h
      subst h2; exact List.Subset.refl _
    · split at h
      · obtain ⟨-, h2⟩ := some_pair_eq h
        subst h2; exact List.Subset.refl _
      · rename_i item an hres
        split at h
        · obtain ⟨-, h2⟩ := some_pair_eq h
          subst h2; exact List.Subset.refl _
        · split at h
          · obtain ⟨-, h2⟩ := some_pair_eq h
            subst h2; exact List.Subset.refl _
          · split at h
            · obtain ⟨-, h2⟩ := some_pair_eq h
              subst h2; exact List.Subset.refl _
            · split at h
              · rename_i raw_mats hraw
                have hinv := ingredientLoop_stInv
                  (fun m amtx vis => calculate_item_requirements f m amtx item_map
                    fc ml ftpu nbc vis)
                  (fun m amtx vis rx visx hx =>
                    ih m amtx item_map fc ml ftpu nbc vis rx visx hx)
                  item_map fc ml (item.required_amount.getD [])
                  (qCeil (amt / (item.yield_amount : ℚ))) an item.facility v raw_mats
                split at h
                · exact absurd h (by simp)
                · rename_i e hlp
                  rw [hlp] at hinv
                  injection h with h1
                  subst h1
                  exact hinv
                · rename_i acc visited2 hlp
                  rw [hlp] at hinv
                  injection h with h1
                  injection h1 with _ h2
                  subst h2
                  exact sRemove_subset_of_subset hinv
              · injection h with h1
                injection h1 with _ h2
                subst h2
                exact sRemove_subset_of_subset (List.Subset.refl _)

/-- Catalog for the C9 counterexample: `w` is processed from `z`, and `z`
resolves to the raw variant `high_speed_z`. -/
def wzMap : List ProductionItem :=
  [rawItem "high_speed_z" "G" 5 1, procItem "w" "F" ["z"] [1] 1 1]

/-- The (valid) result of resolving `w` in `wzMap`. -/
def wzResult : ProductionRequirements :=
  { total_time := 6, total_energy := none, total_cost := 0
    raw_names := ["high_speed_z"], primary_facility := some "G"
    all_facilities := ["G", "F"], intermediate_steps := [], is_valid := true }

/-- C9 counterexample: calling the resolver on `w` with entry visited set
`{high_speed_z}` inserts and removes `w` (which was not present on entry),
but the nested resolution of ingredient `z` removes the pre-existing entry
`high_speed_z`, so the caller's visited set is NOT net-unchanged: the call
returns with the empty set. -/
theorem C9_visited_counterexample :
    calculate_item_requirements 5 "w" 1 wzMap fcOnes mlZero 0 1 ["high_speed_z"]
      = some (wzResult, []) ∧
    "w" ∉ (["high_speed_z"] : List String) ∧
    (([] : List String) ≠ ["high_speed_z"]) := by
  refine ⟨?_, by decide, by decide⟩
  with_unfolding_all decide

/-- C9 (amended): on every exit path the name inserted on entry is removed
again before returning, so the exit visited set is always a subset of the
entry set — no new name ever remains; in particular a call started with the
empty visited set returns the empty visited set.  (Full net-unchangedness
additionally requires that no nested request resolves to a `high_speed_`
variant name already present on entry, as `C9_visited_counterexample`
shows.) -/
theorem C9_visited_restore :
    (∀ (fuel : Nat) (name : String) (amt : ℚ) (item_map : List ProductionItem)
      (fc : FacilityCounts) (ml : ModuleLevels) (ftpu nbc : ℚ)
      (v : List String) (r : ProductionRequirements) (v' : List String),
      calculate_item_requirements fuel name amt item_map fc ml ftpu nbc v
        = some (r, v') → v' ⊆ v) ∧
    (∀ (fuel : Nat) (name : String) (amt : ℚ) (item_map : List ProductionItem)
      (fc : FacilityCounts) (ml : ModuleLevels) (ftpu nbc : ℚ)
      (r : ProductionRequirements) (v' : List String),
      calculate_item_requirements fuel name amt item_map fc ml ftpu nbc []
        = some (r, v') → v' = []) := by
  refine ⟨calc_visited_subset, ?_⟩
  intro fuel name amt item_map fc ml ftpu nbc r v' h
  have := calc_visited_subset fuel name amt item_map fc ml ftpu nbc [] r v' h
  exact List.eq_nil_iff_forall_not_mem.mpr (fun x hx => (List.not_mem_nil x) (this hx))

/-- Witness for `C9_visited_restore`, applied at the concrete `wzMap` call. -/
theorem C9_visited_restore_witness :
    (([] : List String) ⊆ ["high_speed_z"]) ∧ (([] : List String) = []) :=
  ⟨C9_visited_restore.1 5 "w" 1 wzMap fcOnes mlZero 0 1 ["high_speed_z"] wzResult []
      (by with_unfolding_all decide),
    C9_visited_restore.2 5 "w" 1 [rawItem "w" "F" 90 10] fcOnes mlZero 0 1
      { total_time := 90, total_energy := none, total_cost := 0
        raw_names := ["w"], primary_facility := some "F"
        all_facilities := ["F"], intermediate_steps := [], is_valid := true } []
      (by with_unfolding_all decide)⟩

/-! ### C3: base case of the requirement resolver -/

/-- C3: for an item without ingredients that passes every eligibility gate
(and is not cycle-blocked), the resolver returns exactly the base-case
formulas: batches = ceil(required_amount / yield); total_time =
production_time × ceil(batches / facility_count) plus fertilizer_time_per_unit
× batches when fertilizer is required; total_energy = energy_per_batch ×
batches when energy is defined and `none` otherwise; total_cost =
cost_per_batch × batches; the raw-name set is exactly {resolved name} and
the all-facilities set exactly {its producing facility}. -/
theorem C3_base_case (fuel : Nat) (name : String) (amt : ℚ)
    (item_map : List ProductionItem) (fc : FacilityCounts) (ml : ModuleLevels)
    (ftpu nbc : ℚ) (v : List String) (item : ProductionItem) (an : String)
    (hres : resolveVariant item_map name fc ml = some (item, an))
    (hv : name ∉ v)
    (h1 : fc.can_produce item.facility item.facility_level = true)
    (h2 : moduleOk ml item = true)
    (h3 : (item.requires_fertilizer && decide (nbc = 0)) = false)
    (hraw : item.raw_materials = none) :
    calculate_item_requirements (fuel + 1) name amt item_map fc ml ftpu nbc v
      = some
        ({ total_time := item.production_time *
              qCeil (qCeil (amt / (item.yield_amount : ℚ)) /
                (fc.get_count item.facility : ℚ)) +
              (if item.requires_fertilizer then
                ftpu * qCeil (amt / (item.yield_amount : ℚ)) else 0)
           total_energy := item.energy.map
              (fun e => e * qCeil (amt / (item.yield_amount : ℚ)))
           total_cost := item.cost.getD 0 * qCeil (amt / (item.yield_amount : ℚ))
           raw_names := [an]
           primary_facility := some item.facility
           all_facilities := [item.facility]
           intermediate_steps := []
           is_valid := true }, sRemove (sInsert v an) an) := by
  simp only [calculate_item_requirements, if_neg hv, hres, h1, h2, h3, hraw,
    Bool.true_eq_false, if_false, Bool.false_eq_true, sInsert]
  rfl

/-- Witness for `C3_base_case` at the wheat-style raw item. -/
theorem C3_base_case_witness :
    calculate_item_requirements 3 "w" 100 [rawItem "w" "F" 90 10] fcOnes mlZero 0 1 []
      = some
        ({ total_time := (rawItem "w" "F" 90 10).production_time *
              qCeil (qCeil (100 / ((rawItem "w" "F" 90 10).yield_amount : ℚ)) /
                (fcOnes.get_count (rawItem "w" "F" 90 10).facility : ℚ)) +
              (if (rawItem "w" "F" 90 10).requires_fertilizer then
                1 * qCeil (100 / ((rawItem "w" "F" 90 10).yield_amount : ℚ)) else 0)
           total_energy := (rawItem "w" "F" 90 10).energy.map
              (fun e => e * qCeil (100 / ((rawItem "w" "F" 90 10).yield_amount : ℚ)))
           total_cost := (rawItem "w" "F" 90 10).cost.getD 0 *
              qCeil (100 / ((rawItem "w" "F" 90 10).yield_amount : ℚ))
           raw_names := ["w"]
           primary_facility := some (rawItem "w" "F" 90 10).facility
           all_facilities := [(rawItem "w" "F" 90 10).facility]
           intermediate_steps := []
           is_valid := true }, sRemove (sInsert [] "w") "w") :=
  C3_base_case 2 "w" 100 [rawItem "w" "F" 90 10] fcOnes mlZero 1 1 [] _ _
    (by with_unfolding_all decide) (by decide) (by decide) (by decide) (by decide) rfl

/-! ### C4: recursive case of the requirement resolver -/

/-- The sequence of recursive ingredient resolutions, as the claim describes
it: resolve each ingredient's scaled requirement in order, threading the
visited set; `Except.error v'` when an ingredient resolves as invalid
(carrying the visited set at that point), `none` when a nested call ran out
of fuel. -/
def runChain (recurse : String → ℚ → List String →
    Option (ProductionRequirements × List String)) :
    List (String × Nat) → ℚ → List String →
    Option (Except (List String) (List ProductionRequirements × List String))
  | [], _, v => some (Except.ok ([], v))
  | (mat, req) :: rest, batches, v =>
    match recurse mat ((req : ℚ) * batches) v with
    | none => none
    | some (r, v') =>
      if r.is_valid = false then some (Except.error v')
      else
        match runChain recurse rest batches v' with
        | none => none
        | some (Except.error ve) => some (Except.error ve)
        | some (Except.ok (rs, vend)) => some (Except.ok (r :: rs, vend))

/-- The MAXIMUM of the resolved ingredient times (running fold). -/
def chainMaxTime (rs : List ProductionRequirements) (init : ℚ) : ℚ :=
  rs.foldl (fun m r => max m r.total_time) init

/-- The SUM of the resolved ingredient costs (running fold). -/
def chainCostSum (rs : List ProductionRequirements) (init : ℚ) : ℚ :=
  rs.foldl (fun c r => c + r.total_cost) init

/-- The sum of the defined ingredient energies (`none` when no ingredient
defines energy). -/
def chainEnergySum (rs : List ProductionRequirements) (init : Option ℚ) :
    Option ℚ :=
  rs.foldl
    (fun e r =>
      match r.total_energy with
      | some x => some (e.getD 0 + x)
      | none => e)
    init

/-- Ingredient energy combined with this item's own energy × batches
(optimizer.rs lines 526–531). -/
def combineEnergy (ie pe : Option ℚ) (b : ℚ) : Option ℚ :=
  match ie, pe with
  | some ie, some pe => some (ie + pe * b)
  | some ie, none => some ie
  | none, some pe => some (pe * b)
  | none, none => none

lemma foldl_processIngredient_none
    (recurse : String → ℚ → List String →
      Option (ProductionRequirements × List String))
    (item_map : List ProductionItem) (fc : FacilityCounts) (ml : ModuleLevels)
    (ra : List Nat) (bn : ℚ) (an : String) :
    ∀ l : List (Nat × String),
      l.foldl (processIngredient recurse item_map fc ml ra bn an) none = none
  | [] => rfl
  | _ :: rest => foldl_processIngredient_none recurse item_map fc ml ra bn an rest

lemma foldl_processIngredient_error
    (recurse : String → ℚ → List String →
      Option (ProductionRequirements × List String))
    (item_map : List ProductionItem) (fc : FacilityCounts) (ml : ModuleLevels)
    (ra : List Nat) (bn : ℚ) (an : String)
    (e : ProductionRequirements × List String) :
    ∀ l : List (Nat × String),
      l.foldl (processIngredient recurse item_map fc ml ra bn an)
        (some (Except.error e)) = some (Except.error e)
  | [] => rfl
  | _ :: rest => foldl_processIngredient_error recurse item_map fc ml ra bn an e rest

lemma if_gt_eq_max (m t : ℚ) : (if t > m then t else m) = max m t := by
  rcases le_or_lt t m with h | h
  · rw [if_neg (not_lt.mpr h), max_eq_left h]
  · rw [if_pos h, max_eq_right h.le]

lemma loop_vs_runChain
    (recurse : String → ℚ → List String →
      Option (ProductionRequirements × List String))
    (item_map : List ProductionItem) (fc : FacilityCounts) (ml : ModuleLevels)
    (ra : List Nat) (bn : ℚ) (an : String) :
    ∀ (l : List (Nat × String)) (acc : IngredientAcc) (v : List String),
      match runChain recurse (l.map (fun p => (p.2, ra.getD p.1 1))) bn v with
      | none =>
        l.foldl (processIngredient recurse item_map fc ml ra bn an)
          (some (Except.ok (acc, v))) = none
      | some (Except.error ve) =>
        l.foldl (processIngredient recurse item_map fc ml ra bn an)
          (some (Except.ok (acc, v)))
          = some (Except.error (invalidRequirements, sRemove ve an))
      | some (Except.ok (rs, vend)) =>
        ∃ acc',
          l.foldl (processIngredient recurse item_map fc ml ra bn an)
            (some (Except.ok (acc, v))) = some (Except.ok (acc', vend)) ∧
          acc'.max_ingredient_time = chainMaxTime rs acc.max_ingredient_time ∧
          acc'.total_ingredient_cost = chainCostSum rs acc.total_ingredient_cost ∧
          acc'.total_ingredient_energy
            = chainEnergySum rs acc.total_ingredient_energy := by
  intro l
  induction l with
  | nil =>
    intro acc v
    exact ⟨acc, rfl, rfl, rfl, rfl⟩
  | cons im rest ihl =>
    intro acc v
    obtain ⟨i, m⟩ := im
    simp only [List.map_cons, List.foldl_cons, runChain]
    cases hr : recurse m ((ra.getD i 1 : ℚ) * bn) v with
    | none =>
      simp only [processIngredient, hr]
      exact foldl_processIngredient_none recurse item_map fc ml ra bn an rest
    | some rv =>
      obtain ⟨r, v'⟩ := rv
      by_cases hvalid : r.is_valid = false
      · simp only [processIngredient, hr, if_pos hvalid]
        exact foldl_processIngredient_error recurse item_map fc ml ra bn an _ rest
      · simp only [processIngredient, hr, if_neg hvalid]
        have step := ihl
          ({ max_ingredient_time :=
               if r.total_time > acc.max_ingredient_time then r.total_time
               else acc.max_ingredient_time
             total_ingredient_energy :=
               match r.total_energy with
               | some e => some (acc.total_ingredient_energy.getD 0 + e)
               | none => acc.total_ingredient_energy
             total_ingredient_cost := acc.total_ingredient_cost + r.total_cost
             all_raw_names := acc.all_raw_names ++ r.raw_names
             primary_facility :=
               if acc.primary_facility.isNone then r.primary_facility
               else acc.primary_facility
             all_facilities := sExtend acc.all_facilities r.all_facilities
             intermediate_steps :=
               acc.intermediate_steps ++ r.intermediate_steps ++
                 ingredientIntermediateStep item_map fc ml m (ra.getD i 1) }) v'
      -- the goal now matches on `runChain recurse rest`, driven by `step`
        cases hrc : runChain recurse (rest.map (fun p => (p.2, ra.getD p.1 1))) bn v' with
        | none =>
          rw [hrc] at step
          exact step
        | some exc =>
          cases exc with
          | error ve =>
            rw [hrc] at step
            exact step
          | ok pair =>
            obtain ⟨rs, vend⟩ := pair
            rw [hrc] at step
            obtain ⟨acc', heq, hmax, hcost, henergy⟩ := step
            refine ⟨acc', heq, ?_, hcost, henergy⟩
            rw [hmax]
            simp only [chainMaxTime, List.foldl_cons, if_gt_eq_max]

lemma loop_vs_runChain_error
    (recurse : String → ℚ → List String →
      Option (ProductionRequirements × List String))
    (item_map : List ProductionItem) (fc : FacilityCounts) (ml : ModuleLevels)
    (ra : List Nat) (bn : ℚ) (an : String)
    (l : List (Nat × String)) (acc : IngredientAcc) (v : List String)
    (ve : List String)
    (h : runChain recurse (l.map (fun p => (p.2, ra.getD p.1 1))) bn v
      = some (Except.error ve)) :
    l.foldl (processIngredient recurse item_map fc ml ra bn an)
      (some (Except.ok (acc, v)))
      = some (Except.error (invalidRequirements, sRemove ve an)) := by
  have b := loop_vs_runChain recurse item_map fc ml ra bn an l acc v
  rw [h] at b
  exact b

lemma loop_vs_runChain_ok
    (recurse : String → ℚ → List String →
      Option (ProductionRequirements × List String))
    (item_map : List ProductionItem) (fc : FacilityCounts) (ml : ModuleLevels)
    (ra : List Nat) (bn : ℚ) (an : String)
    (l : List (Nat × String)) (acc : IngredientAcc) (v : List String)
    (rs : List ProductionRequirements) (vend : List String)
    (h : runChain recurse (l.map (fun p => (p.2, ra.getD p.1 1))) bn v
      = some (Except.ok (rs, vend))) :
    ∃ acc',
      l.foldl (processIngredient recurse item_map fc ml ra bn an)
        (some (Except.ok (acc, v))) = some (Except.ok (acc', vend)) ∧
      acc'.max_ingredient_time = chainMaxTime rs acc.max_ingredient_time ∧
      acc'.total_ingredient_cost = chainCostSum rs acc.total_ingredient_cost ∧
      acc'.total_ingredient_energy = chainEnergySum rs acc.total_ingredient_energy := by
  have b := loop_vs_runChain recurse item_map fc ml ra bn an l acc v
  rw [h] at b
  exact b

/-- C4: for an item with ingredients (gates passed, not cycle-blocked):
if every ingredient in the sequential recursive resolution is valid, the
result is valid with total_time = MAX of the ingredients' times (not their
sum) plus this item's own processing time production_time ×
ceil(batches / facility_count); total_cost = SUM of the ingredients' costs;
total_energy = sum of the ingredients' energies plus this item's own energy
× batches.  If some ingredient resolves as invalid, the whole result is
the invalid record (short-circuit). -/
theorem C4_recursive_case (fuel : Nat) (name : String) (amt : ℚ)
    (item_map : List ProductionItem) (fc : FacilityCounts) (ml : ModuleLevels)
    (ftpu nbc : ℚ) (v : List String) (item : ProductionItem) (an : String)
    (mats : List String)
    (hres : resolveVariant item_map name fc ml = some (item, an))
    (hv : name ∉ v)
    (h1 : fc.can_produce item.facility item.facility_level = true)
    (h2 : moduleOk ml item = true)
    (h3 : (item.requires_fertilizer && decide (nbc = 0)) = false)
    (hraw : item.raw_materials = some mats) :
    (∀ rs vend,
      runChain
        (fun m a vis => calculate_item_requirements fuel m a item_map fc ml ftpu nbc vis)
        (mats.enum.map (fun p => (p.2, (item.required_amount.getD []).getD p.1 1)))
        (qCeil (amt / (item.yield_amount : ℚ))) (sInsert v an)
        = some (Except.ok (rs, vend)) →
      ∃ res vres,
        calculate_item_requirements (fuel + 1) name amt item_map fc ml ftpu nbc v
          = some (res, vres) ∧
        res.is_valid = true ∧
        res.total_time = chainMaxTime rs 0 +
          item.production_time *
            qCeil (qCeil (amt / (item.yield_amount : ℚ)) /
              (fc.get_count item.facility : ℚ)) ∧
        res.total_cost = chainCostSum rs 0 ∧
        res.total_energy = combineEnergy (chainEnergySum rs none) item.energy
          (qCeil (amt / (item.yield_amount : ℚ)))) ∧
    (∀ ve,
      runChain
        (fun m a vis => calculate_item_requirements fuel m a item_map fc ml ftpu nbc vis)
        (mats.enum.map (fun p => (p.2, (item.required_amount.getD []).getD p.1 1)))
        (qCeil (amt / (item.yield_amount : ℚ))) (sInsert v an)
        = some (Except.error ve) →
      calculate_item_requirements (fuel + 1) name amt item_map fc ml ftpu nbc v
        = some (invalidRequirements, sRemove ve an)) := by
  constructor
  · intro rs vend hrc
    obtain ⟨acc', heq, hmax, hcost, henergy⟩ := loop_vs_runChain_ok
      (fun m a vis => calculate_item_requirements fuel m a item_map fc ml ftpu nbc vis)
      item_map fc ml (item.required_amount.getD [])
      (qCeil (amt / (item.yield_amount : ℚ))) an mats.enum
      (initialAcc item.facility) (sInsert v an) rs vend hrc
    refine ⟨{ total_time := acc'.max_ingredient_time +
                item.production_time *
                  qCeil (qCeil (amt / (item.yield_amount : ℚ)) /
                    (fc.get_count item.facility : ℚ))
              total_energy := combineEnergy acc'.total_ingredient_energy item.energy
                (qCeil (amt / (item.yield_amount : ℚ)))
              total_cost := acc'.total_ingredient_cost
              raw_names := acc'.all_raw_names
              primary_facility := acc'.primary_facility
              all_facilities := acc'.all_facilities
              intermediate_steps := acc'.intermediate_steps
              is_valid := true }, sRemove vend an, ?_, rfl, ?_, ?_, ?_⟩
    · simp only [calculate_item_requirements, if_neg hv, hres, h1, h2, h3, hraw,
        Bool.true_eq_false, Bool.false_eq_true, if_false, ingredientLoop, heq,
        combineEnergy]
    · rw [hmax]
      simp [initialAcc]
    · rw [hcost]
      simp [initialAcc]
    · rw [henergy]
      simp [initialAcc]
  · intro ve hrc
    have beq := loop_vs_runChain_error
      (fun m a vis => calculate_item_requirements fuel m a item_map fc ml ftpu nbc vis)
      item_map fc ml (item.required_amount.getD [])
      (qCeil (amt / (item.yield_amount : ℚ))) an mats.enum
      (initialAcc item.facility) (sInsert v an) ve hrc
    simp only [calculate_item_requirements, if_neg hv, hres, h1, h2, h3, hraw,
      Bool.true_eq_false, Bool.false_eq_true, if_false, ingredientLoop, beq]

deriving instance DecidableEq for Except

/-- The resolved requirement record for ingredient `z` inside `wzMap`. -/
def zReqs : ProductionRequirements :=
  { total_time := 5, total_energy := none, total_cost := 0
    raw_names := ["high_speed_z"], primary_facility := some "G"
    all_facilities := ["G"], intermediate_steps := [], is_valid := true }

/-- Witness for `C4_recursive_case`: the valid branch at `wzMap` (ingredient
chain `w ← z`) and the short-circuit branch at the 2-cycle catalog. -/
theorem C4_recursive_case_witness :
    (∃ res vres,
      calculate_item_requirements (4 + 1) "w" 1 wzMap fcOnes mlZero 0 1 []
        = some (res, vres) ∧
      res.is_valid = true ∧
      res.total_time = chainMaxTime [zReqs] 0 +
        (procItem "w" "F" ["z"] [1] 1 1).production_time *
          qCeil (qCeil (1 / ((procItem "w" "F" ["z"] [1] 1 1).yield_amount : ℚ)) /
            (fcOnes.get_count (procItem "w" "F" ["z"] [1] 1 1).facility : ℚ)) ∧
      res.total_cost = chainCostSum [zReqs] 0 ∧
      res.total_energy = combineEnergy (chainEnergySum [zReqs] none)
        (procItem "w" "F" ["z"] [1] 1 1).energy
        (qCeil (1 / ((procItem "w" "F" ["z"] [1] 1 1).yield_amount : ℚ)))) ∧
    calculate_item_requirements (3 + 1) "a2" 1 twoCycleMap fcOnes mlZero 0 1 []
      = some (invalidRequirements, sRemove ["a2"] "a2") :=
  ⟨(C4_recursive_case 4 "w" 1 wzMap fcOnes mlZero 0 1 []
      (procItem "w" "F" ["z"] [1] 1 1) "w" ["z"]
      (by with_unfolding_all decide) (by decide) (by decide) (by decide)
      (by decide) rfl).1 [zReqs] ["w"] (by with_unfolding_all decide),
    (C4_recursive_case 3 "a2" 1 twoCycleMap fcOnes mlZero 0 1 []
      (procItem "a2" "F" ["b2"] [1] 1 1) "a2" ["b2"]
      (by with_unfolding_all decide) (by decide) (by decide) (by decide)
      (by decide) rfl).2 ["a2"] (by with_unfolding_all decide)⟩

/-! ### The facility allocator (C2, C10) -/

/-- `f64::floor(..) as u32` on an exact rational (negative values clamp to
0, as the Rust `as` cast does; all uses are on non-negative quantities). -/
def qFloorNat (q : ℚ) : Nat := (⌊q⌋).toNat

/-- `f64::round(..) as u32` on an exact non-negative rational (Rust rounds
half away from zero; for the non-negative arguments used here this is
⌊q + 1/2⌋). -/
def qRoundNat (q : ℚ) : Nat := (⌊q + 1/2⌋).toNat

/-- `distribute_proportionally` (optimizer.rs lines 253–282). -/
def distribute_proportionally (materials : List (String × Nat × ℚ))
    (total_facilities : Nat) : List (String × Nat × Nat) :=
  let total_batches : Nat := (materials.map (fun m => m.2.1)).sum
  if total_batches = 0 then
    materials.map (fun m => (m.1, m.2.1, 0))
  else
    (materials.enum.foldl
      (fun (st : List (String × Nat × Nat) × Nat) p =>
        let i := p.1
        let name := p.2.1
        let batches : Nat := p.2.2.1
        let alloc : Nat :=
          if i = materials.length - 1 then st.2
          else if batches > 0 then
            let frac := qRoundNat ((batches : ℚ) / (total_batches : ℚ) *
              (total_facilities : ℚ))
            max (min frac st.2) 1
          else 0
        (st.1 ++ [(name, batches, alloc)], st.2 - alloc))
      ([], total_facilities)).1

/-- The sqrt-decomposition candidate loop of
`calculate_optimal_facility_allocation` (optimizer.rs lines 71–84).  The
fuel argument bounds the iteration count; `k` strictly increases each
round and stays ≤ `batches`, so fuel = `batches` iterations never run out
on the Rust loop's reachable states. -/
def candLoop (batches : Nat) (time : ℚ) : Nat → Nat → List ℚ
  | 0, _ => []
  | fuel + 1, k =>
    if k ≤ batches then
      let rounds := (batches + k - 1) / k
      let entry := (rounds : ℚ) * time
      if rounds > 1 then
        let k1 := batches / (rounds - 1)
        let k2 := if k1 * (rounds - 1) < batches then k1 + 1 else k1
        entry :: candLoop batches time fuel k2
      else [entry]
    else []

/-- Candidate completion times contributed by one active material,
including the all-facilities candidate (optimizer.rs lines 67–89). -/
def candidatesFor (batches : Nat) (time : ℚ) (total_facilities : Nat) : List ℚ :=
  if batches = 0 ∨ time ≤ 0 then []
  else
    candLoop batches time batches 1 ++
      (if total_facilities > 0 then
        [(((batches + total_facilities - 1) / total_facilities : Nat) : ℚ) * time]
      else [])

/-- All candidate completion times (optimizer.rs lines 66–89). -/
def collectCandidates (active : List (Nat × Nat × ℚ)) (total_facilities : Nat) :
    List ℚ :=
  active.foldl (fun acc m => acc ++ candidatesFor m.2.1 m.2.2 total_facilities) []

/-- Ascending insertion used to model the Rust `sort_by(partial_cmp)`
(total on the NaN-free rationals arising here; equal rationals are
identical, so stability is moot). -/
def insertSorted (x : ℚ) : List ℚ → List ℚ
  | [] => [x]
  | y :: ys => if x < y then x :: y :: ys else y :: insertSorted x ys

/-- Ascending sort (optimizer.rs line 103). -/
def sortRat (l : List ℚ) : List ℚ := l.foldr insertSorted []

/-- Inner walk of `dedup_by`: drop elements within `1e-9` of the last kept
element.  (Rust's literal `1e-9` is the nearest `f64` to 10⁻⁹; the exact
rational 1/10⁹ is used here — no verified input has candidate gaps near
the threshold.) -/
def dedupCloseGo (last : ℚ) : List ℚ → List ℚ
  | [] => []
  | y :: ys =>
    if |y - last| < 1 / 1000000000 then dedupCloseGo last ys
    else y :: dedupCloseGo y ys

/-- `dedup_by(|a, b| (*a - *b).abs() < 1e-9)` (optimizer.rs line 104). -/
def dedupClose : List ℚ → List ℚ
  | [] => []
  | x :: xs => x :: dedupCloseGo x xs

/-- The accumulation loop of `is_time_feasible` (optimizer.rs lines
149–170) with its two early-false exits. -/
def feasLoop (target_time : ℚ) (total_facilities : Nat) :
    List (Nat × Nat × ℚ) → Nat → Bool
  | [], _ => true
  | m :: rest, needed =>
    if m.2.2 ≤ 0 then feasLoop target_time total_facilities rest needed
    else
      let max_rounds := qFloorNat (target_time / m.2.2)
      if max_rounds = 0 then false
      else
        let min_facilities := (m.2.1 + max_rounds - 1) / max_rounds
        let needed' := needed + min_facilities
        if needed' > total_facilities then false
        else feasLoop target_time total_facilities rest needed'

/-- `is_time_feasible` (optimizer.rs lines 144–171). -/
def is_time_feasible (target_time : ℚ) (active : List (Nat × Nat × ℚ))
    (total_facilities : Nat) : Bool :=
  feasLoop target_time total_facilities active 0

/-- The lo/hi bisection of `binary_search_min_time` (optimizer.rs lines
123–133); fuel = list length + 1 suffices since `hi - lo` strictly
decreases every iteration. -/
def bsearchLoop (candidate_times : List ℚ) (active : List (Nat × Nat × ℚ))
    (total_facilities : Nat) : Nat → Nat → Nat → Nat
  | 0, lo, _ => lo
  | fuel + 1, lo, hi =>
    if lo < hi then
      let mid := lo + (hi - lo) / 2
      if is_time_feasible (candidate_times.getD mid 0) active total_facilities then
        bsearchLoop candidate_times active total_facilities fuel lo mid
      else
        bsearchLoop candidate_times active total_facilities fuel (mid + 1) hi
    else lo

/-- `binary_search_min_time` (optimizer.rs lines 114–141). -/
def binary_search_min_time (candidate_times : List ℚ)
    (active : List (Nat × Nat × ℚ)) (total_facilities : Nat) : ℚ :=
  if candidate_times = [] then 0
  else
    let lo := bsearchLoop candidate_times active total_facilities
      (candidate_times.length + 1) 0 candidate_times.length
    if lo < candidate_times.length then candidate_times.getD lo 0
    else candidate_times.getLastD 0

/-- Per-material minimum facilities for a target time, plus their running
total (optimizer.rs lines 185–204).  List order matches the Rust loop. -/
def allocMinFacilities (target_time : ℚ) :
    List (Nat × Nat × ℚ) → List (Nat × Nat) × Nat
  | [] => ([], 0)
  | m :: rest =>
    let entry :=
      if m.2.2 ≤ 0 then (m.1, 1)
      else
        let max_rounds := qFloorNat (target_time / m.2.2)
        (m.1, if max_rounds = 0 then m.2.1 else (m.2.1 + max_rounds - 1) / max_rounds)
    let tail := allocMinFacilities target_time rest
    (entry :: tail.1, entry.2 + tail.2)

/-- In-place update `result[i].2 = f(result[i].2)`. -/
def modifyThird : List (String × Nat × Nat) → Nat → (Nat → Nat) →
    List (String × Nat × Nat)
  | [], _, _ => []
  | e :: rest, 0, f => (e.1, e.2.1, f e.2.2) :: rest
  | e :: rest, i + 1, f => e :: modifyThird rest i f

/-- One scan for the material whose completion time would shrink the most
from one extra facility (optimizer.rs lines 216–235); `Iterator`-style
later-wins on ties is irrelevant because the comparison is strict. -/
def bestImprovementIdx (result : List (String × Nat × Nat))
    (active : List (Nat × Nat × ℚ)) : Option Nat :=
  (active.foldl
    (fun (st : ℚ × Option Nat) m =>
      let current_facilities := (result.getD m.1 ("", 0, 0)).2.2
      if current_facilities = 0 then st
      else
        let current_rounds := (m.2.1 + current_facilities - 1) / current_facilities
        let new_rounds := (m.2.1 + current_facilities) / (current_facilities + 1)
        if new_rounds < current_rounds then
          let improvement := ((current_rounds - new_rounds : Nat) : ℚ) * m.2.2
          if improvement > st.1 then (improvement, some m.1) else st
        else st)
    (0, none)).2

/-- The greedy `while remaining > 0` distribution loop (optimizer.rs lines
215–247): give one facility to the best improver, or dump the rest on the
first active material and stop. -/
def distributeLoop (active : List (Nat × Nat × ℚ)) :
    Nat → List (String × Nat × Nat) → List (String × Nat × Nat)
  | 0, result => result
  | remaining + 1, result =>
    match bestImprovementIdx result active with
    | some idx => distributeLoop active remaining (modifyThird result idx (· + 1))
    | none =>
      match active.head? with
      | some m => modifyThird result m.1 (· + (remaining + 1))
      | none => result

/-- `calculate_allocation_for_time` (optimizer.rs lines 174–250). -/
def calculate_allocation_for_time (materials : List (String × Nat × ℚ))
    (active : List (Nat × Nat × ℚ)) (target_time : ℚ) (total_facilities : Nat) :
    List (String × Nat × Nat) :=
  let result0 := materials.map (fun m => (m.1, m.2.1, 0))
  let mins := allocMinFacilities target_time active
  let remaining := total_facilities - mins.2
  let result1 := mins.1.foldl (fun r p => modifyThird r p.1 (fun _ => p.2)) result0
  distributeLoop active remaining result1

/-- The `active_materials` filter of `calculate_optimal_facility_allocation`
(optimizer.rs lines 45–49): indices of materials with positive batches and
positive time. -/
def activeMaterials (materials : List (String × Nat × ℚ)) :
    List (Nat × Nat × ℚ) :=
  (materials.enum.filter (fun p => decide (0 < p.2.2.1) && decide (0 < p.2.2.2))).map
    (fun p => (p.1, p.2.2.1, p.2.2.2))

/-- `calculate_optimal_facility_allocation` (optimizer.rs lines 25–111). -/
def calculate_optimal_facility_allocation (materials : List (String × Nat × ℚ))
    (total_facilities : Nat) : List (String × Nat × Nat) :=
  if materials = [] then []
  else if total_facilities = 0 then
    materials.map (fun m => (m.1, m.2.1, 0))
  else if materials.length = 1 then
    [((materials.getD 0 ("", 0, 0)).1, (materials.getD 0 ("", 0, 0)).2.1,
      total_facilities)]
  else
    let active := activeMaterials materials
    if active = [] then
      materials.map (fun m => (m.1, m.2.1, 0))
    else if total_facilities < active.length then
      distribute_proportionally materials total_facilities
    else
      let candidate_times := collectCandidates active total_facilities
      if candidate_times = [] then
        materials.enum.map
          (fun p => (p.2.1, p.2.2.1, if p.1 < active.length then 1 else 0))
      else
        let sorted := dedupClose (sortRat candidate_times)
        let optimal_time := binary_search_min_time sorted active total_facilities
        calculate_allocation_for_time materials active optimal_time total_facilities

example :
    calculate_optimal_facility_allocation [("a", 10, 5), ("b", 10, 5)] 4
      = [("a", 10, 2), ("b", 10, 2)] := by
  with_unfolding_all decide

example :
    calculate_optimal_facility_allocation [("a", 10, 1), ("b", 1, 1), ("c", 1, 1)] 2
      = [("a", 10, 2), ("b", 1, 1), ("c", 1, 0)] := by
  with_unfolding_all decide

/-- Modelled from the spec's words for C2: the makespan of a material that
is assigned `k` facilities, `ceil(batches/k) × time_per_batch`. -/
def makespan (batches k : Nat) (time_per_batch : ℚ) : ℚ :=
  (((batches + k - 1) / k : Nat) : ℚ) * time_per_batch

/-- C2: on materials [("a",10,5.0),("b",10,5.0)] with 4 facilities the
allocator assigns exactly 2 facilities to each material; both then finish
in makespan 10 2 5 = ceil(10/2)×5 = 25; and no assignment of at most 4
facilities (at least one each) to the two materials achieves a makespan
below 25. -/
theorem C2_allocator_optimal :
    calculate_optimal_facility_allocation [("a", 10, 5), ("b", 10, 5)] 4
      = [("a", 10, 2), ("b", 10, 2)] ∧
    makespan 10 2 5 = 25 ∧
    (∀ ka kb : Nat, 1 ≤ ka → 1 ≤ kb → ka + kb ≤ 4 →
      25 ≤ max (makespan 10 ka 5) (makespan 10 kb 5)) := by
  refine ⟨by with_unfolding_all decide, by with_unfolding_all decide, ?_⟩
  intro ka kb h1 h2 h3
  have hka : ka ≤ 4 := by omega
  have hkb : kb ≤ 4 := by omega
  interval_cases ka <;> interval_cases kb <;>
    first
      | exact absurd h3 (by omega)
      | with_unfolding_all decide

/-- Witness for `C2_allocator_optimal` at the 3/1 split. -/
theorem C2_allocator_optimal_witness :
    25 ≤ max (makespan 10 3 5) (makespan 10 1 5) :=
  C2_allocator_optimal.2.2 3 1 (by decide) (by decide) (by decide)

/-! ### C10: the allocator never hands out more facilities than exist -/

/-- Total facilities assigned by an allocation result. -/
def sumAlloc (l : List (String × Nat × Nat)) : Nat :=
  (l.map (fun e => e.2.2)).sum

/-- C10 counterexample: with more active materials than facilities the
proportional fallback clamps every non-last material with positive batches
to at least 1 facility even when none remain, so 3 facilities are assigned
although only 2 exist. -/
theorem C10_allocation_counterexample :
    calculate_optimal_facility_allocation [("a", 10, 1), ("b", 1, 1), ("c", 1, 1)] 2
      = [("a", 10, 2), ("b", 1, 1), ("c", 1, 0)] ∧
    sumAlloc [("a", 10, 2), ("b", 1, 1), ("c", 1, 0)] = 3 ∧
    ¬ (3 ≤ 2) := by
  refine ⟨by with_unfolding_all decide, by decide, by decide⟩

lemma sumAlloc_map_zero (materials : List (String × Nat × ℚ)) :
    sumAlloc (materials.map (fun m => (m.1, m.2.1, 0))) = 0 := by
  induction materials with
  | nil => rfl
  | cons m rest ih => simpa [sumAlloc, List.map_cons] using ih

lemma sumAlloc_modifyThird_le (f : Nat → Nat) (d : Nat) (hf : ∀ x, f x ≤ x + d) :
    ∀ (l : List (String × Nat × Nat)) (i : Nat),
      sumAlloc (modifyThird l i f) ≤ sumAlloc l + d := by
  intro l
  induction l with
  | nil => intro i; simp [modifyThird, sumAlloc]
  | cons e rest ih =>
    intro i
    cases i with
    | zero =>
      simp only [modifyThird, sumAlloc, List.map_cons, List.sum_cons]
      have := hf e.2.2
      omega
    | succ j =>
      simp only [modifyThird, sumAlloc, List.map_cons, List.sum_cons]
      have := ih j
      simp only [sumAlloc] at this
      omega

lemma distributeLoop_sum_le (active : List (Nat × Nat × ℚ)) :
    ∀ (remaining : Nat) (result : List (String × Nat × Nat)),
      sumAlloc (distributeLoop active remaining result) ≤ sumAlloc result + remaining := by
  intro remaining
  induction remaining with
  | zero => intro result; simp [distributeLoop]
  | succ rem ih =>
    intro result
    simp only [distributeLoop]
    cases bestImprovementIdx result active with
    | some idx =>
      calc sumAlloc (distributeLoop active rem (modifyThird result idx (· + 1)))
          ≤ sumAlloc (modifyThird result idx (· + 1)) + rem := ih _
        _ ≤ (sumAlloc result + 1) + rem :=
            Nat.add_le_add_right
              (sumAlloc_modifyThird_le (· + 1) 1 (fun x => Nat.le_refl _) result idx) rem
        _ = sumAlloc result + (rem + 1) := by omega
    | none =>
      cases active.head? with
      | some m =>
        simpa using sumAlloc_modifyThird_le (· + (rem + 1)) (rem + 1)
          (fun x => Nat.le_refl _) result m.1
      | none => simp

lemma foldl_setAlloc_le :
    ∀ (allocs : List (Nat × Nat)) (r0 : List (String × Nat × Nat)),
      sumAlloc (allocs.foldl (fun r p => modifyThird r p.1 (fun _ => p.2)) r0)
        ≤ sumAlloc r0 + (allocs.map (fun p => p.2)).sum := by
  intro allocs
  induction allocs with
  | nil => intro r0; simp
  | cons p rest ih =>
    intro r0
    simp only [List.foldl_cons, List.map_cons, List.sum_cons]
    calc sumAlloc (rest.foldl (fun r q => modifyThird r q.1 (fun _ => q.2))
          (modifyThird r0 p.1 (fun _ => p.2)))
        ≤ sumAlloc (modifyThird r0 p.1 (fun _ => p.2)) + (rest.map (fun q => q.2)).sum :=
          ih _
      _ ≤ (sumAlloc r0 + p.2) + (rest.map (fun q => q.2)).sum :=
          Nat.add_le_add_right
            (sumAlloc_modifyThird_le (fun _ => p.2) p.2 (fun x => Nat.le_add_left _ _)
              r0 p.1) _
      _ = sumAlloc r0 + (p.2 + (rest.map (fun q => q.2)).sum) := by omega

lemma allocMin_list_sum (t : ℚ) :
    ∀ act : List (Nat × Nat × ℚ),
      ((allocMinFacilities t act).1.map (fun p => p.2)).sum
        = (allocMinFacilities t act).2 := by
  intro act
  induction act with
  | nil => rfl
  | cons m rest ih => simp [allocMinFacilities, ih]

lemma feas_total_min_le (t : ℚ) (F : Nat) :
    ∀ (act : List (Nat × Nat × ℚ)) (needed : Nat),
      (∀ m ∈ act, 0 < m.2.2) → needed ≤ F →
      feasLoop t F act needed = true →
      needed + (allocMinFacilities t act).2 ≤ F := by
  intro act
  induction act with
  | nil => intro needed _ hle _; simpa [allocMinFacilities]
  | cons m rest ih =>
    intro needed hpos hle hfeas
    have hmt : 0 < m.2.2 := hpos m (List.mem_cons_self m rest)
    simp only [feasLoop, if_neg (not_le.mpr hmt)] at hfeas
    by_cases hmr : qFloorNat (t / m.2.2) = 0
    · rw [if_pos hmr] at hfeas
      exact absurd hfeas (by simp)
    · rw [if_neg hmr] at hfeas
      by_cases hover : needed + (m.2.1 + qFloorNat (t / m.2.2) - 1) /
          qFloorNat (t / m.2.2) > F
      · rw [if_pos hover] at hfeas
        exact absurd hfeas (by simp)
      · rw [if_neg hover] at hfeas
        have hrec := ih (needed + (m.2.1 + qFloorNat (t / m.2.2) - 1) /
            qFloorNat (t / m.2.2))
          (fun x hx => hpos x (List.mem_cons_of_mem m hx)) (not_lt.mp hover) hfeas
        simp only [allocMinFacilities, if_neg (not_le.mpr hmt), if_neg hmr]
        omega

lemma active_time_pos (materials : List (String × Nat × ℚ)) :
    ∀ m ∈ activeMaterials materials, 0 < m.2.2 := by
  intro m hm
  simp only [activeMaterials, List.mem_map, List.mem_filter] at hm
  obtain ⟨p, ⟨-, hcond⟩, rfl⟩ := hm
  simp only [Bool.and_eq_true, decide_eq_true_eq] at hcond
  exact hcond.2

lemma sumAlloc_enumFrom_indicator (k : Nat) :
    ∀ (l : List (String × Nat × ℚ)) (n : Nat),
      sumAlloc ((l.enumFrom n).map
        (fun p => (p.2.1, p.2.2.1, if p.1 < k then 1 else 0))) ≤ k - n := by
  intro l
  induction l with
  | nil => intro n; simp [sumAlloc]
  | cons m rest ih =>
    intro n
    simp only [List.enumFrom, List.map_cons, sumAlloc, List.sum_cons]
    have := ih (n + 1)
    simp only [sumAlloc] at this
    by_cases hn : n < k
    · rw [if_pos hn]; omega
    · rw [if_neg hn]; omega

/-- C10 (amended): the sum of assigned facilities is at most
total_facilities in every branch except the proportional fallback: when the
number of active materials is at most total_facilities and (in the general
branch) the binary-searched time is feasible, the allocator never hands out
more machines than exist.  (The proportional fallback violates the bound,
`C10_allocation_counterexample`; the general branch needs the feasibility
proviso because with no feasible candidate the fallback time's minimum
allocations are applied unchecked.) -/
theorem C10_allocation_bound (materials : List (String × Nat × ℚ)) (F : Nat)
    (hactive : (activeMaterials materials).length ≤ F)
    (hfeas : collectCandidates (activeMaterials materials) F = [] ∨
      is_time_feasible
        (binary_search_min_time
          (dedupClose (sortRat (collectCandidates (activeMaterials materials) F)))
          (activeMaterials materials) F)
        (activeMaterials materials) F = true) :
    sumAlloc (calculate_optimal_facility_allocation materials F) ≤ F := by
  simp only [calculate_optimal_facility_allocation]
  by_cases hm : materials = []
  · rw [if_pos hm]
    exact Nat.zero_le F
  · rw [if_neg hm]
    by_cases hF : F = 0
    · rw [if_pos hF, sumAlloc_map_zero]
      exact Nat.zero_le F
    · rw [if_neg hF]
      by_cases hlen : materials.length = 1
      · rw [if_pos hlen]
        simp [sumAlloc]
      · rw [if_neg hlen]
        by_cases hact : activeMaterials materials = []
        · rw [if_pos hact, sumAlloc_map_zero]
          exact Nat.zero_le F
        · rw [if_neg hact, if_neg (Nat.not_lt.mpr hactive)]
          by_cases hcand : collectCandidates (activeMaterials materials) F = []
          · rw [if_pos hcand]
            have := sumAlloc_enumFrom_indicator
              ((activeMaterials materials).length) materials 0
            rw [← List.enum] at this
            omega
          · rw [if_neg hcand]
            have hfeas' :
                is_time_feasible
                  (binary_search_min_time
                    (dedupClose (sortRat (collectCandidates
                      (activeMaterials materials) F)))
                    (activeMaterials materials) F)
                  (activeMaterials materials) F = true := by
              rcases hfeas with h | h
              · exact absurd h hcand
              · exact h
            simp only [calculate_allocation_for_time]
            have h1 := distributeLoop_sum_le (activeMaterials materials)
              (F - (allocMinFacilities
                (binary_search_min_time
                  (dedupClose (sortRat (collectCandidates
                    (activeMaterials materials) F)))
                  (activeMaterials materials) F)
                (activeMaterials materials)).2)
              ((allocMinFacilities
                (binary_search_min_time
                  (dedupClose (sortRat (collectCandidates
                    (activeMaterials materials) F)))
                  (activeMaterials materials) F)
                (activeMaterials materials)).1.foldl
                (fun r p => modifyThird r p.1 (fun _ => p.2))
                (materials.map (fun m => (m.1, m.2.1, 0))))
            have h2 := foldl_setAlloc_le
              (allocMinFacilities
                (binary_search_min_time
                  (dedupClose (sortRat (collectCandidates
                    (activeMaterials materials) F)))
                  (activeMaterials materials) F)
                (activeMaterials materials)).1
              (materials.map (fun m => (m.1, m.2.1, 0)))
            rw [sumAlloc_map_zero, allocMin_list_sum] at h2
            have h3 := feas_total_min_le
              (binary_search_min_time
                (dedupClose (sortRat (collectCandidates
                  (activeMaterials materials) F)))
                (activeMaterials materials) F) F
              (activeMaterials materials) 0 (active_time_pos materials)
              (Nat.zero_le F) hfeas'
            omega

/-- Witness for `C10_allocation_bound` at the C2 input. -/
theorem C10_allocation_bound_witness :
    sumAlloc (calculate_optimal_facility_allocation [("a", 10, 5), ("b", 10, 5)] 4)
      ≤ 4 :=
  C10_allocation_bound [("a", 10, 5), ("b", 10, 5)] 4
    (by with_unfolding_all decide)
    (Or.inr (by with_unfolding_all decide))

/-! ### The efficiency calculator (C5, C6) -/

/-- `models.rs` `ProductionEfficiency`.  (`fertilizer_per_batch` is declared
in models.rs but never constructed or read by optimizer.rs, whose struct
literal omits it; it is omitted here accordingly.) -/
structure ProductionEfficiency where
  item : ProductionItem
  profit_per_second : ℚ
  profit_per_energy : Option ℚ
  total_time_per_unit : ℚ
  total_energy_per_unit : Option ℚ
  requires_raw : Option String
  raw_cost : ℚ
  raw_facility : Option String
  all_facilities : List String
  intermediate_steps : List (String × String × Nat)
  startup_time : ℚ
  effective_profit_per_second : ℚ
  raw_material_details : Option (List (String × Nat × ℚ))
deriving DecidableEq

/-- Fertilizer production time per unit (optimizer.rs lines 643–650). -/
def fertilizerTimePerUnit (items : List ProductionItem) (fc : FacilityCounts) : ℚ :=
  let nimbus_bed_count := (fc.get_count "Nimbus Bed" : ℚ)
  match mapGet items "fertilizer" with
  | some f => f.production_time / ((f.yield_amount : ℚ) * max nimbus_bed_count 1)
  | none => 0

/-- One step of the per-ingredient requirements loop of
`calculate_efficiencies` (optimizer.rs lines 697–760): fresh cycle-guard
set per ingredient; an invalid ingredient skips the item (inner `none`);
outer `none` = a nested resolver call ran out of fuel. -/
def effIngredientStep (fuel : Nat) (item_map : List ProductionItem)
    (fc : FacilityCounts) (ml : ModuleLevels) (ftpu nbc : ℚ)
    (required_amounts : List Nat) (st : Option (Option IngredientAcc))
    (im : Nat × String) : Option (Option IngredientAcc) :=
  match st with
  | none => none
  | some none => some none
  | some (some acc) =>
    let required := required_amounts.getD im.1 1
    match calculate_item_requirements fuel im.2 (required : ℚ) item_map fc ml
      ftpu nbc [] with
    | none => none
    | some (reqs, _) =>
      if reqs.is_valid = false then some none
      else
        some (some
          { max_ingredient_time :=
              if reqs.total_time > acc.max_ingredient_time then reqs.total_time
              else acc.max_ingredient_time
            total_ingredient_energy :=
              match reqs.total_energy with
              | some e => some (acc.total_ingredient_energy.getD 0 + e)
              | none => acc.total_ingredient_energy
            total_ingredient_cost := acc.total_ingredient_cost + reqs.total_cost
            all_raw_names := acc.all_raw_names ++ reqs.raw_names
            primary_facility :=
              if acc.primary_facility.isNone then reqs.primary_facility
              else acc.primary_facility
            all_facilities := sExtend acc.all_facilities reqs.all_facilities
            intermediate_steps :=
              acc.intermediate_steps ++ reqs.intermediate_steps ++
                ingredientIntermediateStep item_map fc ml im.2 required })

/-- One step of the gathering-rate loop (optimizer.rs lines 797–830).
The rate accumulator is `Option ℚ` with `none` = `f64::INFINITY` (the
loop's start value); the second component collects
(name, amount_per_batch, time_per_batch, facility) details. -/
def gatherStep (item_map : List ProductionItem) (fc : FacilityCounts)
    (ml : ModuleLevels) (required_amounts : List Nat)
    (st : Option ℚ × List (String × Nat × ℚ × String)) (im : Nat × String) :
    Option ℚ × List (String × Nat × ℚ × String) :=
  let required_per_batch := (required_amounts.getD im.1 1 : ℚ)
  let high_speed_name := "high_speed_" ++ im.2
  let raw_item :=
    match mapGet item_map high_speed_name with
    | some hs =>
      match hs.module_requirement with
      | some (module_name, required_level) =>
        if ml.can_use module_name required_level then some hs
        else mapGet item_map im.2
      | none => some hs
    | none => mapGet item_map im.2
  match raw_item with
  | some raw =>
    let raw_facility_count := (fc.get_count raw.facility : ℚ)
    let units_per_second :=
      ((raw.yield_amount : ℚ) * raw_facility_count) / raw.production_time
    let batches_worth_per_second := units_per_second / required_per_batch
    let gathering :=
      match st.1 with
      | none => some batches_worth_per_second
      | some g => some (min g batches_worth_per_second)
    (gathering,
      st.2 ++ [(raw.name, required_amounts.getD im.1 1, raw.production_time,
        raw.facility)])
  | none => st

/-- De-duplicate raw-material names preserving first occurrences
(optimizer.rs lines 853–856). -/
def uniqueGo (seen : List String) : List String → List String
  | [] => []
  | x :: xs => if x ∈ seen then uniqueGo seen xs else x :: uniqueGo (x :: seen) xs

/-- The data the two branch arms of `calculate_efficiencies` hand to the
shared tail (the 9-tuple of optimizer.rs line 677); `steady_state_time` is
`Option ℚ` with `none` = `f64::INFINITY`. -/
structure EffBranchData where
  total_time : ℚ
  steady_state_time : Option ℚ
  total_energy : Option ℚ
  raw_cost : ℚ
  requires_raw : Option String
  raw_facility : Option String
  all_facilities : List String
  intermediate_steps : List (String × String × Nat)
  raw_material_details : Option (List (String × Nat × ℚ))
deriving DecidableEq

/-- The raw-material branch of `calculate_efficiencies` (optimizer.rs
lines 890–915): display time per unit spreads the batch over
yield × facility_count, steady-state time only over facility_count. -/
def rawBranchData (item : ProductionItem) (fc : FacilityCounts) (ftpu : ℚ) :
    EffBranchData :=
  let facility_count := (fc.get_count item.facility : ℚ)
  let time_per_batch := item.production_time
  let fertilizer_time := if item.requires_fertilizer then ftpu else 0
  let effective_time_per_yield :=
    (time_per_batch + fertilizer_time) / ((item.yield_amount : ℚ) * facility_count)
  let steady_state_time := (time_per_batch + fertilizer_time) / facility_count
  { total_time := effective_time_per_yield
    steady_state_time := some steady_state_time
    total_energy := item.energy
    raw_cost := item.cost.getD 0
    requires_raw := none
    raw_facility := none
    all_facilities := [item.facility]
    intermediate_steps := []
    raw_material_details := none }

/-- The processed-item branch of `calculate_efficiencies` (optimizer.rs
lines 678–889); `none` = nested resolver ran out of fuel, `some none` =
item skipped (invalid ingredient). -/
def processedBranchData (fuel : Nat) (item_map : List ProductionItem)
    (fc : FacilityCounts) (ml : ModuleLevels) (ftpu nbc : ℚ)
    (item : ProductionItem) (raw_mats : List String) :
    Option (Option EffBranchData) :=
  let required_amounts := item.required_amount.getD []
  let looped := raw_mats.enum.foldl
    (effIngredientStep fuel item_map fc ml ftpu nbc required_amounts)
    (some (some (initialAcc item.facility)))
  match looped with
  | none => none
  | some none => some none
  | some (some acc) =>
    let processing_facility_count := (fc.get_count item.facility : ℚ)
    let processing_time_per_mill := item.production_time
    let processing_time := processing_time_per_mill / processing_facility_count
    let gathered := raw_mats.enum.foldl
      (gatherStep item_map fc ml required_amounts) (none, [])
    let processing_batches_per_second :=
      processing_facility_count / processing_time_per_mill
    let batches_per_second :=
      match gathered.1 with
      | none => processing_batches_per_second
      | some g => min g processing_batches_per_second
    let steady_state_time :=
      if batches_per_second > 0 then some (1 / batches_per_second) else none
    let total_time := acc.max_ingredient_time + processing_time
    let total_energy :=
      match acc.total_ingredient_energy, item.energy with
      | some ie, some pe => some (ie + pe)
      | some ie, none => some ie
      | none, some pe => some pe
      | none, none => none
    let unique_raw_names := uniqueGo [] acc.all_raw_names
    let raw_details :=
      if gathered.2.length > 1 then
        if gathered.2.all (fun d => d.2.2.2 = (gathered.2.getD 0 ("", 0, 0, "")).2.2.2)
        then some (gathered.2.map (fun d => (d.1, d.2.1, d.2.2.1)))
        else none
      else none
    some (some
      { total_time := total_time
        steady_state_time := steady_state_time
        total_energy := total_energy
        raw_cost := acc.total_ingredient_cost
        requires_raw := some (String.intercalate "+" unique_raw_names)
        raw_facility := acc.primary_facility
        all_facilities := acc.all_facilities
        intermediate_steps := acc.intermediate_steps
        raw_material_details := raw_details })

/-- The per-item body of `calculate_efficiencies` (optimizer.rs lines
654–951): eligibility/currency filters, branch data, then the shared
profit metrics.  `none` = out of fuel; `some none` = item filtered or
skipped; `some (some eff)` = item retained. -/
def computeEfficiency (fuel : Nat) (item_map : List ProductionItem)
    (target_currency : String) (fc : FacilityCounts) (ml : ModuleLevels)
    (ftpu nbc : ℚ) (item : ProductionItem) :
    Option (Option ProductionEfficiency) :=
  if fc.can_produce item.facility item.facility_level = false then some none
  else if moduleOk ml item = false then some none
  else if item.sell_currency ≠ target_currency then some none
  else if item.requires_fertilizer && decide (nbc = 0) then some none
  else
    let branched :=
      match item.raw_materials with
      | some raw_mats => processedBranchData fuel item_map fc ml ftpu nbc item raw_mats
      | none => some (some (rawBranchData item fc ftpu))
    match branched with
    | none => none
    | some none => some none
    | some (some d) =>
      let net_profit := item.sell_value * (item.yield_amount : ℚ) - d.raw_cost
      let profit_per_second :=
        match d.steady_state_time with
        | some s => if s > 0 then net_profit / s else 0
        | none => 0
      let profit_per_energy :=
        d.total_energy.map (fun e => if e > 0 then net_profit / e else 0)
      let effective_profit_per_second := profit_per_second
      let startup_time := d.total_time
      some (some
        { item := item
          profit_per_second := profit_per_second
          profit_per_energy := profit_per_energy
          total_time_per_unit := d.total_time
          total_energy_per_unit := d.total_energy
          requires_raw := d.requires_raw
          raw_cost := d.raw_cost
          raw_facility := d.raw_facility
          all_facilities := d.all_facilities
          intermediate_steps := d.intermediate_steps
          startup_time := startup_time
          effective_profit_per_second := effective_profit_per_second
          raw_material_details := d.raw_material_details })

/-- `calculate_efficiencies` (optimizer.rs lines 633–954): the retained
efficiencies in item order; `none` when a nested resolver call ran out of
fuel. -/
def calculate_efficiencies (items : List ProductionItem)
    (target_currency : String) (fc : FacilityCounts) (ml : ModuleLevels)
    (fuel : Nat) : Option (List ProductionEfficiency) :=
  items.foldr
    (fun item acc =>
      match acc with
      | none => none
      | some l =>
        match computeEfficiency fuel items target_currency fc ml
          (fertilizerTimePerUnit items fc) ((fc.get_count "Nimbus Bed" : ℚ)) item with
        | none => none
        | some none => some l
        | some (some e) => some (e :: l))
    (some [])

/-- Facility inventory with two Farmland plots (everything else 1). -/
def fcFarm2 : FacilityCounts :=
  { farmland := (2, 1), woodland := (1, 1), mineral_pile := (1, 1)
    carousel_mill := (1, 1), jukebox_dryer := (1, 1), crafting_table := (1, 1)
    dance_pad_polisher := (1, 1), aniipod_maker := (1, 1), nimbus_bed := (1, 1) }

/-- The wheat raw item of the spec's end-to-end example. -/
def wheatItem : ProductionItem :=
  { name := "wheat", facility := "Farmland", raw_materials := none
    required_amount := none, cost := some 0, sell_currency := "coins"
    sell_value := 1, production_time := 90, yield_amount := 10, energy := none
    facility_level := 1, module_requirement := none, requires_fertilizer := false }

/-- The efficiency record `calculate_efficiencies` produces for `wheatItem`
with two Farmland plots. -/
def wheatEff2 : ProductionEfficiency :=
  { item := wheatItem, profit_per_second := 2/9, profit_per_energy := none
    total_time_per_unit := 9/2, total_energy_per_unit := none
    requires_raw := none, raw_cost := 0, raw_facility := none
    all_facilities := ["Farmland"], intermediate_steps := []
    startup_time := 9/2, effective_profit_per_second := 2/9
    raw_material_details := none }

/-- C5 counterexample: for the retained raw item wheat with facility count
2 > 1, the computed steady-state time per batch (90/2 = 45) is strictly
GREATER than the startup time (the per-unit time 90/(10×2) = 4.5), because
the raw-branch startup time divides by the yield as well — the claimed
inequality steady ≤ startup fails for any yield > 1. -/
theorem C5_steady_state_counterexample :
    calculate_efficiencies [wheatItem] "coins" fcFarm2 mlZero 1 = some [wheatEff2] ∧
    fcFarm2.get_count wheatItem.facility = 2 ∧
    (rawBranchData wheatItem fcFarm2
        (fertilizerTimePerUnit [wheatItem] fcFarm2)).steady_state_time = some 45 ∧
    wheatEff2.startup_time = 9/2 ∧
    ¬ ((45 : ℚ) ≤ 9/2) := by
  refine ⟨?_, by decide, ?_, ?_, ?_⟩ <;> with_unfolding_all decide

/-- C5 (amended): for every retained raw-material item (any facility
count), the raw-branch steady-state time equals yield × startup time: the
startup (per-unit) time divides the batch time by yield × facility_count
while the steady-state (per-batch) time divides only by facility_count.
Hence steady ≤ startup holds precisely when yield ≤ 1 — parallelism never
enters the comparison, contrary to the claim. -/
theorem C5_steady_vs_startup (fuel : Nat) (item_map : List ProductionItem)
    (target_currency : String) (fc : FacilityCounts) (ml : ModuleLevels)
    (ftpu nbc : ℚ) (item : ProductionItem) (eff : ProductionEfficiency)
    (h : computeEfficiency fuel item_map target_currency fc ml ftpu nbc item
      = some (some eff))
    (hraw : item.raw_materials = none)
    (hy : item.yield_amount ≠ 0) :
    (rawBranchData item fc ftpu).steady_state_time
      = some ((item.yield_amount : ℚ) * eff.startup_time) ∧
    eff.startup_time = (rawBranchData item fc ftpu).total_time := by
  simp only [computeEfficiency, hraw] at h
  by_cases g1 : fc.can_produce item.facility item.facility_level = false
  · rw [if_pos g1] at h; exact absurd h (by simp)
  · rw [if_neg g1] at h
    by_cases g2 : moduleOk ml item = false
    · rw [if_pos g2] at h; exact absurd h (by simp)
    · rw [if_neg g2] at h
      by_cases g3 : item.sell_currency ≠ target_currency
      · rw [if_pos g3] at h; exact absurd h (by simp)
      · rw [if_neg g3] at h
        by_cases g4 : (item.requires_fertilizer && decide (nbc = 0)) = true
        · rw [if_pos g4] at h; exact absurd h (by simp)
        · rw [if_neg g4] at h
          simp only [Option.some.injEq] at h
          have hstart : eff.startup_time = (rawBranchData item fc ftpu).total_time := by
            rw [← h]
          refine ⟨?_, hstart⟩
          rw [hstart]
          simp only [rawBranchData, Option.some.injEq]
          have hyq : (item.yield_amount : ℚ) ≠ 0 := by exact_mod_cast hy
          by_cases hfc : ((fc.get_count item.facility : Nat) : ℚ) = 0
          · rw [hfc]
            simp
          · field_simp
            ring

/-- Witness for `C5_steady_vs_startup` at the wheat/two-Farmland input. -/
theorem C5_steady_vs_startup_witness :
    (rawBranchData wheatItem fcFarm2
        (fertilizerTimePerUnit [wheatItem] fcFarm2)).steady_state_time
      = some ((wheatItem.yield_amount : ℚ) * wheatEff2.startup_time) ∧
    wheatEff2.startup_time
      = (rawBranchData wheatItem fcFarm2
          (fertilizerTimePerUnit [wheatItem] fcFarm2)).total_time :=
  C5_steady_vs_startup 1 [wheatItem] "coins" fcFarm2 mlZero
    (fertilizerTimePerUnit [wheatItem] fcFarm2) 1 wheatItem wheatEff2
    (by with_unfolding_all decide) rfl (by decide)

/-! ### The single-best planner (C6) -/

/-- `models.rs` `ProductionStep`. -/
structure ProductionStep where
  item_name : String
  facility : String
  quantity : Nat
  time : ℚ
  energy : Option ℚ
  profit_contribution : ℚ
  chain_id : Option Nat
  facility_allocation : Option (List (String × Nat × Nat))
deriving DecidableEq

/-- `models.rs` `ProductionPath`. -/
structure ProductionPath where
  steps : List ProductionStep
  total_time : ℚ
  startup_time : ℚ
  total_energy : Option ℚ
  total_profit : ℚ
  currency : String
  items_produced : Nat
  is_energy_self_sufficient : Bool
  energy_items_produced : Option Nat
  energy_item_name : Option String
deriving DecidableEq

/-- `f64::ceil(..) as u32` (negative values clamp to 0 as in Rust). -/
def natCeil (q : ℚ) : Nat := (⌈q⌉).toNat

/-- Stable insertion for `sort_by`: `x` passes every element strictly
before it and lands in front of the first element that is not, so equal
keys keep their original order, exactly like Rust's stable sort. -/
def insertBy {α : Type _} (bef : α → α → Bool) (x : α) : List α → List α
  | [] => [x]
  | y :: ys => if bef y x then y :: insertBy bef x ys else x :: y :: ys

/-- Stable sort by the strict precedence predicate `bef`. -/
def stableSortBy {α : Type _} (bef : α → α → Bool) (l : List α) : List α :=
  l.foldr (insertBy bef) []

/-- The energy-mode sort key (optimizer.rs lines 1018–1024). -/
def energySortKey (e : ProductionEfficiency) : ℚ :=
  e.profit_per_energy.getD 0

/-- The time-mode sort key (optimizer.rs lines 1027–1037): net-of-energy
profit per second. -/
def timeSortKey (energy_cost_per_min : ℚ) (e : ProductionEfficiency) : ℚ :=
  let energy_cost := e.total_energy_per_unit.getD 0 * energy_cost_per_min / 60
  e.effective_profit_per_second - energy_cost / max e.total_time_per_unit 1

/-- `find_best_production_path` (optimizer.rs lines 1004–1152).  The
match's `[]` alternative is exactly the `efficiencies.is_empty()` early
return (the stable sort preserves length). -/
def find_best_production_path (efficiencies : List ProductionEfficiency)
    (target_amount : ℚ) (optimize_energy : Bool) (energy_cost_per_min : ℚ)
    (fc : FacilityCounts) : Option ProductionPath :=
  match
    (if optimize_energy then
      stableSortBy (fun a b => decide (energySortKey b < energySortKey a))
        efficiencies
    else
      stableSortBy
        (fun a b => decide (timeSortKey energy_cost_per_min b <
          timeSortKey energy_cost_per_min a))
        efficiencies) with
  | [] => none
  | best :: _ =>
    let profit_per_unit :=
      best.item.sell_value * (best.item.yield_amount : ℚ) - best.raw_cost
    let units_needed := natCeil (target_amount / profit_per_unit)
    let main_facility_count := fc.get_count best.item.facility
    let raw_steps :=
      match best.requires_raw with
      | some raw_name =>
        let raw_amount_needed :=
          (best.item.required_amount.map (fun amounts => amounts.sum)).getD 1 *
            units_needed
        let raw_facility := best.raw_facility.getD "Unknown"
        let raw_facility_count := fc.get_count raw_facility
        let facility_allocation :=
          match best.raw_material_details with
          | some details =>
            let materials_for_allocation :=
              details.map (fun d => (d.1, d.2.1 * units_needed, d.2.2))
            let allocation := calculate_optimal_facility_allocation
              materials_for_allocation raw_facility_count
            if allocation.length > 1 then some allocation else none
          | none => none
        ({ item_name := raw_name
           facility := raw_facility ++ " (x" ++ toString raw_facility_count ++ ")"
           quantity := raw_amount_needed
           time := 0
           energy := none
           profit_contribution := 0
           chain_id := none
           facility_allocation := facility_allocation } : ProductionStep) ::
          best.intermediate_steps.map
            (fun s =>
              { item_name := s.1
                facility := s.2.1 ++ " (x" ++ toString (fc.get_count s.2.1) ++ ")"
                quantity := s.2.2 * units_needed
                time := 0
                energy := none
                profit_contribution := 0
                chain_id := none
                facility_allocation := none })
      | none => []
    let production_step : ProductionStep :=
      { item_name := best.item.name
        facility := best.item.facility ++ " (x" ++ toString main_facility_count ++ ")"
        quantity := units_needed
        time := best.total_time_per_unit * (units_needed : ℚ)
        energy := best.total_energy_per_unit.map (fun e => e * (units_needed : ℚ))
        profit_contribution := profit_per_unit * (units_needed : ℚ)
        chain_id := none
        facility_allocation := none }
    let steps := raw_steps ++ [production_step]
    let total_time :=
      if best.requires_raw.isSome then
        (units_needed : ℚ) * profit_per_unit / best.effective_profit_per_second
      else
        best.item.production_time *
          qCeil ((units_needed : ℚ) / (main_facility_count : ℚ))
    some
      { steps := steps
        total_time := total_time + best.startup_time
        startup_time := best.startup_time
        total_energy := best.total_energy_per_unit.map
          (fun e => e * (units_needed : ℚ))
        total_profit := profit_per_unit * (units_needed : ℚ)
        currency := best.item.sell_currency
        items_produced := units_needed * best.item.yield_amount
        is_energy_self_sufficient := false
        energy_items_produced := none
        energy_item_name := none }

/-- Facility inventory with four Farmland plots at level 1 (everything
else 1), the C6 end-to-end scenario. -/
def fcW4 : FacilityCounts :=
  { farmland := (4, 1), woodland := (1, 1), mineral_pile := (1, 1)
    carousel_mill := (1, 1), jukebox_dryer := (1, 1), crafting_table := (1, 1)
    dance_pad_polisher := (1, 1), aniipod_maker := (1, 1), nimbus_bed := (1, 1) }

/-- The efficiency record for wheat with four Farmland plots: startup time
(= per-unit time) 90/(10×4) = 2.25 s, steady-state profit rate
10/(90/4) = 4/9 per second. -/
def wheatEff4 : ProductionEfficiency :=
  { item := wheatItem, profit_per_second := 4/9, profit_per_energy := none
    total_time_per_unit := 9/4, total_energy_per_unit := none
    requires_raw := none, raw_cost := 0, raw_facility := none
    all_facilities := ["Farmland"], intermediate_steps := []
    startup_time := 9/4, effective_profit_per_second := 4/9
    raw_material_details := none }

/-- The single production step of the wheat plan. -/
def wheatStep : ProductionStep :=
  { item_name := "wheat", facility := "Farmland (x4)", quantity := 10
    time := 45/2, energy := none, profit_contribution := 100
    chain_id := none, facility_allocation := none }

/-- The plan the single-best planner returns for wheat, target 100:
total_time = 90 × ceil(10/4) + 2.25 = 272.25 s. -/
def wheatPath : ProductionPath :=
  { steps := [wheatStep], total_time := 1089/4, startup_time := 9/4
    total_energy := none, total_profit := 100, currency := "coins"
    items_produced := 100, is_energy_self_sufficient := false
    energy_items_produced := none, energy_item_name := none }

set_option maxRecDepth 4000 in
/-- C6 counterexample: the single-best plan for the wheat catalog and
target 100 has total_time 272.25 s, not the claimed
steady_state_time × 10 + 90 = 315 s; and its startup_time is the per-unit
time 2.25 s, not 90 s. -/
theorem C6_wheat_total_time_counterexample :
    find_best_production_path [wheatEff4] 100 false 0 fcW4 = some wheatPath ∧
    wheatPath.total_time = 1089/4 ∧
    ¬ (wheatPath.total_time = 315) ∧
    ¬ (wheatPath.startup_time = 90) := by
  refine ⟨?_, ?_, ?_, ?_⟩ <;> with_unfolding_all decide

set_option maxRecDepth 4000 in
/-- C6 (amended): for the single-item wheat catalog (cost 0, sell 1, time
90 s, yield 10, Farmland ×4 at level 1) and target 100, the efficiency
list is exactly [wheatEff4] and the single-best planner returns exactly one
production step, for wheat, with quantity ceil(100/(1×10)) = 10 batches;
the plan's total_time is production_time × ceil(units/facility_count) +
startup_time = 90×3 + 90/(10×4) = 272.25 s (the raw-material branch uses
batch rounds over the facilities plus the per-unit startup, not
steady_state_time × batches + production_time = 315 s). -/
theorem C6_wheat_end_to_end :
    calculate_efficiencies [wheatItem] "coins" fcW4 mlZero 1 = some [wheatEff4] ∧
    find_best_production_path [wheatEff4] 100 false 0 fcW4 = some wheatPath ∧
    wheatPath.steps = [wheatStep] ∧
    wheatStep.item_name = "wheat" ∧
    wheatStep.quantity = 10 ∧
    wheatPath.total_time = 90 * 3 + 90 / (10 * 4) := by
  refine ⟨?_, ?_, ?_, ?_, ?_, ?_⟩ <;> with_unfolding_all decide

/-! ### The cross-facility parallel planner (C7) -/

/-- The greedy facility-disjoint selection of
`find_parallel_production_path` (optimizer.rs lines 1204–1233): walk the
sorted list, skip unprofitable items and items whose (main or raw) facility
has count 0, and take an item iff none of its facilities is occupied.
Returns the selected efficiencies and the occupied-facility set. -/
def greedySelect (fc : FacilityCounts) (sorted_effs : List ProductionEfficiency) :
    List ProductionEfficiency × List String :=
  sorted_effs.foldl
    (fun (st : List ProductionEfficiency × List String) eff =>
      if eff.effective_profit_per_second ≤ 0 then st
      else if fc.get_count eff.item.facility = 0 then st
      else if (match eff.raw_facility with
        | some raw_fac => decide (fc.get_count raw_fac = 0)
        | none => false) = true then st
      else
        let facilities_needed := eff.all_facilities
        let has_conflict := facilities_needed.any (fun f => f ∈ st.2)
        if has_conflict then st
        else (st.1 ++ [eff], sExtend st.2 facilities_needed))
    ([], [])

/-- Loop state of the per-chain step construction (optimizer.rs lines
1257–1261). -/
structure ParallelBuildState where
  steps : List ProductionStep
  total_profit : ℚ
  total_energy : Option ℚ
  total_items : Nat
  chain_id : Nat
deriving DecidableEq

/-- One chain's step construction (optimizer.rs lines 1263–1370). -/
def buildChainStep (fc : FacilityCounts) (theoretical_time : ℚ)
    (st : ParallelBuildState) (eff : ProductionEfficiency) : ParallelBuildState :=
  let current_chain_id := st.chain_id
  let st1 := { st with chain_id := st.chain_id + 1 }
  let profit_per_batch :=
    eff.item.sell_value * (eff.item.yield_amount : ℚ) - eff.raw_cost
  let batches :=
    if eff.requires_raw.isSome then
      natCeil (theoretical_time * eff.effective_profit_per_second / profit_per_batch)
    else
      let facility_count := (fc.get_count eff.item.facility : ℚ)
      let time_per_effective_batch := eff.item.production_time / facility_count
      natCeil (theoretical_time / time_per_effective_batch)
  if batches = 0 then st1
  else
    let step_profit := profit_per_batch * (batches : ℚ)
    let step_time :=
      if eff.requires_raw.isSome then
        (batches : ℚ) * (profit_per_batch / eff.effective_profit_per_second)
      else
        let facility_count := (fc.get_count eff.item.facility : ℚ)
        eff.item.production_time * qCeil ((batches : ℚ) / facility_count)
    let total_energy :=
      match eff.total_energy_per_unit with
      | some energy => some (st1.total_energy.getD 0 + energy * (batches : ℚ))
      | none => st1.total_energy
    let chain_steps :=
      match eff.requires_raw with
      | some requires =>
        let raw_facility := eff.raw_facility.getD eff.item.facility
        let raw_qty :=
          match eff.item.required_amount with
          | some amounts => amounts.sum * batches
          | none => batches
        let raw_facility_count := fc.get_count raw_facility
        let facility_allocation :=
          match eff.raw_material_details with
          | some details =>
            let materials_for_allocation :=
              details.map (fun d => (d.1, d.2.1 * batches, d.2.2))
            let allocation := calculate_optimal_facility_allocation
              materials_for_allocation raw_facility_count
            if allocation.length > 1 then some allocation else none
          | none => none
        ({ item_name := requires
           facility := raw_facility ++ " (x" ++
             toString (fc.get_count raw_facility) ++ ")"
           quantity := raw_qty
           time := step_time
           energy := none
           profit_contribution := 0
           chain_id := some current_chain_id
           facility_allocation := facility_allocation } : ProductionStep) ::
          eff.intermediate_steps.map
            (fun s =>
              { item_name := s.1
                facility := s.2.1 ++ " (x" ++ toString (fc.get_count s.2.1) ++ ")"
                quantity := s.2.2 * batches
                time := step_time
                energy := none
                profit_contribution := 0
                chain_id := some current_chain_id
                facility_allocation := none })
      | none => []
    let final_step : ProductionStep :=
      { item_name := eff.item.name
        facility := eff.item.facility ++ " (x" ++
          toString (fc.get_count eff.item.facility) ++ ")"
        quantity := batches
        time := step_time
        energy := eff.total_energy_per_unit.map (fun e => e * (batches : ℚ))
        profit_contribution := step_profit
        chain_id := some current_chain_id
        facility_allocation := none }
    { steps := st1.steps ++ chain_steps ++ [final_step]
      total_profit := st1.total_profit + step_profit
      total_energy := total_energy
      total_items := st1.total_items + batches * eff.item.yield_amount
      chain_id := st1.chain_id }

/-- Generic in-place list update. -/
def listModify {α : Type _} : List α → Nat → (α → α) → List α
  | [], _, _ => []
  | x :: xs, 0, f => f x :: xs
  | x :: xs, i + 1, f => x :: listModify xs i f

/-- A placeholder step for out-of-range indexing (never hit on the Rust
side, where the index comes from an enumeration of the same vector). -/
def defaultStep : ProductionStep :=
  { item_name := "", facility := "", quantity := 0, time := 0, energy := none
    profit_contribution := 0, chain_id := none, facility_allocation := none }

/-- The `max_by` scan of the top-up loop (optimizer.rs lines 1375–1384):
among steps with positive profit contribution, the (last) one with the
highest profit/time rate. -/
def topUpIdx (steps : List ProductionStep) : Option Nat :=
  (steps.enum.foldl
    (fun (best : Option (Nat × ProductionStep)) p =>
      if p.2.profit_contribution > 0 then
        match best with
        | none => some p
        | some b =>
          if p.2.profit_contribution / p.2.time <
              b.2.profit_contribution / b.2.time then some b
          else some p
      else best)
    none).map (fun b => b.1)

/-- The `while total_profit < target_amount` top-up loop (optimizer.rs
lines 1373–1395), fuel-bounded: `none` = out of fuel (the Rust loop has
not exited yet). -/
def topUpLoop (target_amount : ℚ) :
    Nat → List ProductionStep → ℚ → Option (List ProductionStep × ℚ)
  | 0, _, _ => none
  | fuelT + 1, steps, total_profit =>
    if total_profit < target_amount then
      match topUpIdx steps with
      | some idx =>
        let step := steps.getD idx defaultStep
        let profit_per_batch := step.profit_contribution / (step.quantity : ℚ)
        topUpLoop target_amount fuelT
          (listModify steps idx
            (fun s =>
              { s with quantity := s.quantity + 1
                       profit_contribution := s.profit_contribution + profit_per_batch }))
          (total_profit + profit_per_batch)
      | none => some (steps, total_profit)
    else some (steps, total_profit)

/-- `find_parallel_production_path` (optimizer.rs lines 1180–1418).  The
match on the selected list is the `selected_items.len() <= 1 → None` check
plus the later `selected_items[0]` access; `fuelT` bounds the top-up loop.
-/
def find_parallel_production_path (efficiencies : List ProductionEfficiency)
    (target_amount : ℚ) (fc : FacilityCounts) (fuelT : Nat) :
    Option ProductionPath :=
  if efficiencies = [] then none
  else
    let sorted_effs := stableSortBy
      (fun a b => decide (b.effective_profit_per_second <
        a.effective_profit_per_second)) efficiencies
    match (greedySelect fc sorted_effs).1 with
    | s0 :: s1 :: srest =>
      let selected_items := s0 :: s1 :: srest
      let combined_profit_per_second :=
        (selected_items.map (fun e => e.effective_profit_per_second)).sum
      let startup_time :=
        (selected_items.map (fun e => e.startup_time)).foldl max 0
      let theoretical_time := target_amount / combined_profit_per_second
      let built := selected_items.foldl (buildChainStep fc theoretical_time)
        { steps := [], total_profit := 0, total_energy := none
          total_items := 0, chain_id := 0 }
      match topUpLoop target_amount fuelT built.steps built.total_profit with
      | none => none
      | some (steps, total_profit) =>
        let actual_total_time := (steps.map (fun s => s.time)).foldl max 0
        let production_count :=
          (steps.filter (fun s => decide (s.profit_contribution > 0))).length
        if production_count ≤ 1 then none
        else
          some
            { steps := steps
              total_time := actual_total_time + startup_time
              startup_time := startup_time
              total_energy := built.total_energy
              total_profit := total_profit
              currency := s0.item.sell_currency
              items_produced := built.total_items
              is_energy_self_sufficient := false
              energy_items_produced := none
              energy_item_name := none }
    | _ => none

/-- C7: the parallel planner returns `None` whenever the greedy
facility-disjoint selection keeps at most one chain; and any plan it does
return has at least two positive-profit production steps — it never
returns a plan built from a single chain. -/
theorem C7_parallel_requires_two_chains :
    (∀ (efficiencies : List ProductionEfficiency) (target_amount : ℚ)
      (fc : FacilityCounts) (fuelT : Nat),
      (greedySelect fc (stableSortBy
        (fun a b => decide (b.effective_profit_per_second <
          a.effective_profit_per_second)) efficiencies)).1.length ≤ 1 →
      find_parallel_production_path efficiencies target_amount fc fuelT = none) ∧
    (∀ (efficiencies : List ProductionEfficiency) (target_amount : ℚ)
      (fc : FacilityCounts) (fuelT : Nat) (p : ProductionPath),
      find_parallel_production_path efficiencies target_amount fc fuelT = some p →
      2 ≤ (p.steps.filter (fun s => decide (s.profit_contribution > 0))).length) := by
  constructor
  · intro effs target_amount fc fuelT hlen
    by_cases he : effs = []
    · simp [find_parallel_production_path, he]
    · simp only [find_parallel_production_path, if_neg he]
      cases hsel : (greedySelect fc (stableSortBy
          (fun a b => decide (b.effective_profit_per_second <
            a.effective_profit_per_second)) effs)).1 with
      | nil => rfl
      | cons s0 rest =>
        cases rest with
        | nil => rfl
        | cons s1 srest =>
          rw [hsel] at hlen
          simp at hlen
  · intro effs target_amount fc fuelT p h
    by_cases he : effs = []
    · rw [find_parallel_production_path, if_pos he] at h
      exact absurd h (by simp)
    · simp only [find_parallel_production_path, if_neg he] at h
      split at h
      · split at h
        · exact absurd h (by simp)
        · rename_i steps total_profit heq
          split at h
          · exact absurd h (by simp)
          · rename_i hcount
            injection h with h1
            subst h1
            exact Nat.not_le.mp hcount
      · exact absurd h (by simp)

/-- A second raw item on a different facility for the two-chain demo. -/
def woodItem : ProductionItem :=
  { name := "wood", facility := "Woodland", raw_materials := none
    required_amount := none, cost := some 0, sell_currency := "coins"
    sell_value := 2, production_time := 30, yield_amount := 5, energy := none
    facility_level := 1, module_requirement := none, requires_fertilizer := false }

/-- Efficiency record for `woodItem` with one Woodland plot. -/
def woodEff : ProductionEfficiency :=
  { item := woodItem, profit_per_second := 1/3, profit_per_energy := none
    total_time_per_unit := 6, total_energy_per_unit := none
    requires_raw := none, raw_cost := 0, raw_facility := none
    all_facilities := ["Woodland"], intermediate_steps := []
    startup_time := 6, effective_profit_per_second := 1/3
    raw_material_details := none }

/-- The two-chain parallel plan of the wheat+wood demo. -/
def parallelDemoPath : ProductionPath :=
  { steps :=
      [{ item_name := "wheat", facility := "Farmland (x1)", quantity := 1
         time := 90, energy := none, profit_contribution := 10
         chain_id := some 0, facility_allocation := none },
       { item_name := "wood", facility := "Woodland (x1)", quantity := 1
         time := 30, energy := none, profit_contribution := 10
         chain_id := some 1, facility_allocation := none }]
    total_time := 96, startup_time := 6, total_energy := none
    total_profit := 20, currency := "coins", items_produced := 15
    is_energy_self_sufficient := false, energy_items_produced := none
    energy_item_name := none }

set_option maxRecDepth 4000 in
/-- Witness for `C7_parallel_requires_two_chains`: with only the single
wheat chain the planner returns `None`; with the disjoint wheat+wood pair
it returns a plan with two positive-profit steps. -/
theorem C7_parallel_requires_two_chains_witness :
    find_parallel_production_path [wheatEff4] 10 fcOnes 5 = none ∧
    2 ≤ ((parallelDemoPath.steps).filter
      (fun s => decide (s.profit_contribution > 0))).length :=
  ⟨C7_parallel_requires_two_chains.1 [wheatEff4] 10 fcOnes 5
      (by with_unfolding_all decide),
    C7_parallel_requires_two_chains.2 [wheatEff4, woodEff] 10 fcOnes 5
      parallelDemoPath (by with_unfolding_all decide)⟩

/-! ### The energy-self-sufficient planner (C8) -/

/-- `models.rs` `EnergyItemEfficiency`. -/
structure EnergyItemEfficiency where
  item : ProductionItem
  energy_per_second : ℚ
  time_per_batch : ℚ
  energy_per_batch : ℚ
  cost_per_batch : ℚ
deriving DecidableEq

/-- The per-item body of `calculate_energy_efficiencies` (optimizer.rs
lines 1431–1467): raw materials with positive energy that pass the
facility/module gates. -/
def computeEnergyEfficiency (fc : FacilityCounts) (ml : ModuleLevels)
    (item : ProductionItem) : Option EnergyItemEfficiency :=
  if item.raw_materials.isSome then none
  else
    match item.energy with
    | some energy_per_batch =>
      if energy_per_batch > 0 then
        if fc.can_produce item.facility item.facility_level = false then none
        else if moduleOk ml item = false then none
        else
          let facility_count := (fc.get_count item.facility : ℚ)
          let time_per_batch := item.production_time / facility_count
          some
            { item := item
              energy_per_second := energy_per_batch / time_per_batch
              time_per_batch := time_per_batch
              energy_per_batch := energy_per_batch
              cost_per_batch := item.cost.getD 0 }
      else none
    | none => none

/-- `calculate_energy_efficiencies` (optimizer.rs lines 1424–1478),
sorted by energy per second, best first. -/
def calculate_energy_efficiencies (items : List ProductionItem)
    (fc : FacilityCounts) (ml : ModuleLevels) : List EnergyItemEfficiency :=
  stableSortBy (fun a b => decide (b.energy_per_second < a.energy_per_second))
    (items.filterMap (computeEnergyEfficiency fc ml))

/-- The self-sufficiency break condition of the energy-batch search
(optimizer.rs lines 1596–1604): produced energy covers the energy consumed
over the whole (profit + energy production) time. -/
def energyCond (time_for_profit production_time_per_batch energy_facility_count
    energy_per_batch energy_rate : ℚ) (energy_batches : Nat) : Bool :=
  let rounds := qCeil ((energy_batches : ℚ) / energy_facility_count)
  let actual_energy_time := production_time_per_batch * rounds
  let total_time := time_for_profit + actual_energy_time
  let energy_needed := total_time * energy_rate
  let energy_produced := (energy_batches : ℚ) * energy_per_batch
  decide (energy_produced ≥ energy_needed)

/-- The `loop { … energy_batches += 1; if energy_batches > 10000 return
None }` search (optimizer.rs lines 1594–1612): starting from 1, the fuel
9999 admits exactly the batch counts 1..10000 before giving up, mirroring
the `> 10000` safety exit. -/
def energyLoopAux (time_for_profit production_time_per_batch
    energy_facility_count energy_per_batch energy_rate : ℚ) :
    Nat → Nat → Option Nat
  | fuel, energy_batches =>
    if energyCond time_for_profit production_time_per_batch
        energy_facility_count energy_per_batch energy_rate energy_batches then
      some energy_batches
    else
      match fuel with
      | 0 => none
      | f + 1 =>
        energyLoopAux time_for_profit production_time_per_batch
          energy_facility_count energy_per_batch energy_rate f
          (energy_batches + 1)

/-- `find_self_sufficient_path` (optimizer.rs lines 1498–1729). -/
def find_self_sufficient_path (profit_efficiencies : List ProductionEfficiency)
    (energy_efficiencies : List EnergyItemEfficiency) (target_amount : ℚ)
    (energy_cost_per_min : ℚ) (fc : FacilityCounts) : Option ProductionPath :=
  if profit_efficiencies = [] then none
  else if energy_cost_per_min ≤ 0 then
    find_best_production_path profit_efficiencies target_amount false 0 fc
  else if energy_efficiencies = [] then none
  else
    match energy_efficiencies with
    | [] => none
    | best_energy :: _ =>
      match stableSortBy
        (fun a b => decide (b.effective_profit_per_second <
          a.effective_profit_per_second)) profit_efficiencies with
      | [] => none
      | best_profit :: _ =>
        let profit_per_batch :=
          best_profit.item.sell_value * (best_profit.item.yield_amount : ℚ) -
            best_profit.raw_cost
        let profit_facility_count :=
          (fc.get_count best_profit.item.facility : ℚ)
        let energy_facility_count :=
          (fc.get_count best_energy.item.facility : ℚ)
        let energy_rate := energy_cost_per_min / 60
        let energy_production_rate :=
          best_energy.energy_per_second * energy_facility_count
        if energy_production_rate ≤ energy_rate then none
        else
          let batches_for_profit := qCeil (target_amount / profit_per_batch)
          let time_for_profit :=
            if best_profit.requires_raw.isSome then
              best_profit.total_time_per_unit * batches_for_profit /
                profit_facility_count
            else
              best_profit.item.production_time *
                qCeil (batches_for_profit / profit_facility_count)
          let production_time_per_batch := best_energy.item.production_time
          match energyLoopAux time_for_profit production_time_per_batch
            energy_facility_count best_energy.energy_per_batch energy_rate
            9999 1 with
          | none => none
          | some energy_batches =>
            let energy_rounds :=
              qCeil ((energy_batches : ℚ) / energy_facility_count)
            let actual_energy_production_time :=
              production_time_per_batch * energy_rounds
            let total_time := time_for_profit + actual_energy_production_time
            let total_energy_needed := total_time * energy_rate
            let energy_step : ProductionStep :=
              { item_name := best_energy.item.name ++ " (for energy)"
                facility := best_energy.item.facility ++ " (x" ++
                  toString (fc.get_count best_energy.item.facility) ++ ")"
                quantity := energy_batches
                time := actual_energy_production_time
                energy := some ((energy_batches : ℚ) *
                  best_energy.energy_per_batch)
                profit_contribution :=
                  -((energy_batches : ℚ) * best_energy.cost_per_batch)
                chain_id := none
                facility_allocation := none }
            let raw_steps :=
              match best_profit.requires_raw with
              | some raw_name =>
                let raw_amount_needed :=
                  (best_profit.item.required_amount.map
                    (fun amounts => amounts.sum)).getD 1 *
                    qFloorNat batches_for_profit
                let raw_facility := best_profit.raw_facility.getD "Unknown"
                let raw_facility_count := fc.get_count raw_facility
                let facility_allocation :=
                  match best_profit.raw_material_details with
                  | some details =>
                    let materials_for_allocation := details.map
                      (fun d => (d.1, d.2.1 * qFloorNat batches_for_profit, d.2.2))
                    let allocation := calculate_optimal_facility_allocation
                      materials_for_allocation raw_facility_count
                    if allocation.length > 1 then some allocation else none
                  | none => none
                ({ item_name := raw_name
                   facility := raw_facility ++ " (x" ++
                     toString raw_facility_count ++ ")"
                   quantity := raw_amount_needed
                   time := 0
                   energy := none
                   profit_contribution := 0
                   chain_id := none
                   facility_allocation := facility_allocation } :
                  ProductionStep) ::
                  best_profit.intermediate_steps.map
                    (fun s =>
                      { item_name := s.1
                        facility := s.2.1 ++ " (x" ++
                          toString (fc.get_count s.2.1) ++ ")"
                        quantity := s.2.2 * qFloorNat batches_for_profit
                        time := 0
                        energy := none
                        profit_contribution := 0
                        chain_id := none
                        facility_allocation := none })
              | none => []
            let profit_step : ProductionStep :=
              { item_name := best_profit.item.name ++ " (for profit)"
                facility := best_profit.item.facility ++ " (x" ++
                  toString (fc.get_count best_profit.item.facility) ++ ")"
                quantity := qFloorNat batches_for_profit
                time := time_for_profit
                energy := none
                profit_contribution := profit_per_batch * batches_for_profit
                chain_id := none
                facility_allocation := none }
            let energy_seed_cost :=
              (energy_batches : ℚ) * best_energy.cost_per_batch
            let gross_profit := profit_per_batch * batches_for_profit
            let net_profit := gross_profit - energy_seed_cost
            let startup_time :=
              max best_profit.startup_time best_energy.item.production_time
            some
              { steps := energy_step :: raw_steps ++ [profit_step]
                total_time := total_time + startup_time
                startup_time := startup_time
                total_energy := some total_energy_needed
                total_profit := net_profit
                currency := best_profit.item.sell_currency
                items_produced :=
                  qFloorNat batches_for_profit * best_profit.item.yield_amount
                is_energy_self_sufficient := true
                energy_items_produced :=
                  some (energy_batches * best_energy.item.yield_amount)
                energy_item_name := some best_energy.item.name }

/-- C8: (1) with a positive energy cost, if the best (first) energy item's
per-second energy rate times its facility count does not exceed the
required rate energy_cost_per_min/60, `find_self_sufficient_path` returns
`None` for every target amount; (2) the iterative energy-batch search is
bounded: whatever it returns lies within its fuel budget (started at
batches = 1 with fuel 9999 it can only return counts ≤ 10000, and past the
bound the search — and with it the planner — returns `None`), so the
search terminates on every input. -/
theorem C8_self_sufficiency_guard :
    (∀ (profit_efficiencies : List ProductionEfficiency)
      (energy_efficiencies : List EnergyItemEfficiency)
      (target_amount energy_cost_per_min : ℚ) (fc : FacilityCounts),
      0 < energy_cost_per_min →
      (∀ e0, energy_efficiencies.head? = some e0 →
        e0.energy_per_second * (fc.get_count e0.item.facility : ℚ) ≤
          energy_cost_per_min / 60) →
      find_self_sufficient_path profit_efficiencies energy_efficiencies
        target_amount energy_cost_per_min fc = none) ∧
    (∀ (tfp pt efc epb er : ℚ) (fuel b n : Nat),
      energyLoopAux tfp pt efc epb er fuel b = some n →
      b ≤ n ∧ n ≤ b + fuel) := by
  constructor
  · intro pe ee target ecpm fc hecpm hcond
    simp only [find_self_sufficient_path]
    by_cases h1 : pe = []
    · rw [if_pos h1]
    · rw [if_neg h1, if_neg (not_le.mpr hecpm)]
      by_cases h2 : ee = []
      · rw [if_pos h2]
      · rw [if_neg h2]
        cases ee with
        | nil => rfl
        | cons e0 er =>
          have hr := hcond e0 rfl
          cases hs : stableSortBy
            (fun a b => decide (b.effective_profit_per_second <
              a.effective_profit_per_second)) pe with
          | nil => simp only [hs]
          | cons bp rest =>
            simp only [hs, if_pos hr]
  · intro tfp pt efc epb er fuel
    induction fuel with
    | zero =>
      intro b n h
      rw [energyLoopAux] at h
      split at h
      · injection h with h1
        subst h1
        exact ⟨Nat.le_refl b, Nat.le_add_right b 0⟩
      · have h' : (none : Option Nat) = some n := h
        exact absurd h' (by simp)
    | succ f ih =>
      intro b n h
      rw [energyLoopAux] at h
      split at h
      · injection h with h1
        subst h1
        exact ⟨Nat.le_refl b, Nat.le_add_right b (f + 1)⟩
      · have h' : energyLoopAux tfp pt efc epb er f (b + 1) = some n := h
        obtain ⟨hl, hu⟩ := ih (b + 1) n h'
        exact ⟨by omega, by omega⟩

/-- An energy item whose full-count production rate exactly equals the
required energy rate (1 energy/s vs 60 energy-cost/min). -/
def batteryItem : ProductionItem :=
  { name := "battery", facility := "F", raw_materials := none
    required_amount := none, cost := some 0, sell_currency := "coins"
    sell_value := 1, production_time := 60, yield_amount := 1
    energy := some 60, facility_level := 1, module_requirement := none
    requires_fertilizer := false }

/-- Energy efficiency of `batteryItem` at facility count 1. -/
def batteryEff : EnergyItemEfficiency :=
  { item := batteryItem, energy_per_second := 1, time_per_batch := 60
    energy_per_batch := 60, cost_per_batch := 0 }

/-- Witness for `C8_self_sufficiency_guard`: the borderline energy setup
yields `None`, and a loop run that succeeds immediately stays within the
bound. -/
theorem C8_self_sufficiency_guard_witness :
    find_self_sufficient_path [wheatEff4] [batteryEff] 100 60 fcOnes = none ∧
    ((1 : Nat) ≤ 1 ∧ (1 : Nat) ≤ 1 + 9999) :=
  ⟨C8_self_sufficiency_guard.1 [wheatEff4] [batteryEff] 100 60 fcOnes
      (by norm_num)
      (fun e0 h => by cases h; with_unfolding_all decide),
    C8_self_sufficiency_guard.2 0 60 1 60 1 9999 1 1
      (by with_unfolding_all decide)⟩
